import Mathlib

/-!
Verification of the laundry-shop backend (order/payment transactional core).

The definitions below are a shallow embedding of the JavaScript sources:
  - models/Order.js, models/Payment.js, models/Shop.js, models/Customer
  - controllers/orderController.js (createOrder, markReady, collectOrder)
  - controllers/paymentController.js (recordPayment)
  - middlewares/subscriptionCheck (checkSubscription)
  - utils/pin (generatePin, hashPin, verifyPin)
  - routes/orderRoutes.js, routes/paymentRoutes.js (middleware pipelines)

The document store (MongoDB/Mongoose) is modelled as explicit state: a `DB`
record of lists.  Each controller is a pure function from a `DB` and a request
to a response and a new `DB`.  Mongoose specifics that the code relies on are
modelled faithfully:
  - `pre("save")` hooks run on `save`/`create`, NOT on `findOneAndUpdate`;
  - schema `min: 0` validators run on `create`/`save`, not on updates;
  - `unique: true, sparse: true` indexes are global (not per-tenant) and make
    inserts with a duplicate key fail (error code 11000, which the error
    middleware maps to `"Duplicate field value entered"`, HTTP 400);
  - `findOneAndUpdate` applies filter and update to one document atomically.
Monetary amounts are modelled as integers (the claims only involve integer
arithmetic); audit logging is append-only, never read, and never fails the
primary operation, so it is omitted from the state.
-/

namespace Laundro

/-! ## Generic list helper: update the first element matching a predicate.

This models MongoDB `findOneAndUpdate`, which modifies exactly the one
document matched by the filter. -/

def updateFirst (p : α → Bool) (f : α → α) : List α → List α
  | [] => []
  | x :: xs => if p x then f x :: xs else x :: updateFirst p f xs

/-! ## Decimal digit strings.

`jsNatToString` is the embedding of JavaScript `Number.prototype.toString()`
for natural numbers: the base-10 digit string, most significant digit first,
no leading zeros.  `decimalDigits` returns the digits least significant
first; fuel makes the recursion structural so the kernel can evaluate it. -/

def decimalDigitsAux : Nat → Nat → List Nat
  | 0, _ => []
  | fuel + 1, n => if n < 10 then [n] else n % 10 :: decimalDigitsAux fuel (n / 10)

def decimalDigits (n : Nat) : List Nat := decimalDigitsAux (n + 1) n

def jsNatToString (n : Nat) : String := ⟨((decimalDigits n).reverse.map Nat.digitChar)⟩

/-! ## utils/pin: PIN generation and hashing.

`crypto.randomInt(min, max)` draws uniformly from `[min, max)` (upper bound
exclusive); the randomness is an explicit `Nat` parameter `r`.  bcrypt is an
external library; it is modelled by its functional contract: `hashPin` is a
salted one-way hash whose only observable property in this code is that
`bcrypt.compare pin hash` succeeds exactly when `pin` is the hashed PIN
(collisions are ignored).  The wrapper structure keeps hashes a distinct type
from plaintext PINs. -/

def randomInt (minv maxv r : Nat) : Nat := minv + r % (maxv - minv)

def generatePin (r : Nat) : String := jsNatToString (randomInt 100000 999999 r)

structure BcryptHash where
  preimage : String
deriving DecidableEq, Repr

def hashPin (pin : String) : BcryptHash := ⟨pin⟩

def verifyPin (pin : String) (h : BcryptHash) : Bool := pin == h.preimage

/-! ## Data model (models/Order.js, Payment.js, Shop.js, Customer). -/

inductive OrderStatus
  | CREATED
  | PROCESSING
  | READY
  | COLLECTED
deriving DecidableEq, Repr

inductive PaymentMethod
  | CASH
  | ELECTRONIC
deriving DecidableEq, Repr

inductive SubscriptionStatus
  | ACTIVE
  | GRACE
  | SUSPENDED
deriving DecidableEq, Repr

inductive UserRole
  | OWNER
  | EMPLOYEE
  | ADMIN
deriving DecidableEq, Repr

structure OrderItem where
  itemName : String
  size : String
  priceAtOrderTime : Int
  quantity : Int
deriving DecidableEq, Repr

structure Order where
  oid : Nat
  shopId : Nat
  customerId : Nat
  status : OrderStatus
  items : List OrderItem
  totalAmount : Int
  amountPaid : Int
  balance : Int
  pickupPinHash : Option BcryptHash
  createdBy : Nat
  collectedBy : Option Nat
  collectedAt : Option Nat
  offlineId : Option String
deriving DecidableEq, Repr

structure Payment where
  pid : Nat
  orderId : Nat
  amount : Int
  method : PaymentMethod
  receivedBy : Nat
  offlineId : Option String
deriving DecidableEq, Repr

structure Customer where
  cid : Nat
  shopId : Nat
deriving DecidableEq, Repr

structure Shop where
  sid : Nat
  subscriptionStatus : SubscriptionStatus
deriving DecidableEq, Repr

structure User where
  uid : Nat
  shopId : Nat
  role : UserRole
deriving DecidableEq, Repr

structure DB where
  orders : List Order
  payments : List Payment
  customers : List Customer
  shops : List Shop
  nextId : Nat
deriving DecidableEq, Repr

structure ErrorResponse where
  message : String
  statusCode : Nat
deriving DecidableEq, Repr

/-! ## Store queries.

Every controller query that is tenant-scoped filters by `shopId` in the query
itself (`Order.findOne({ _id, shopId })`); `findOrderById` models the unscoped
`Order.findById` used by the recordPayment recheck and by `populate`. -/

def findOrderScoped (db : DB) (orderId shopId : Nat) : Option Order :=
  db.orders.find? (fun o => o.oid == orderId && o.shopId == shopId)

def findOrderById (db : DB) (orderId : Nat) : Option Order :=
  db.orders.find? (fun o => o.oid == orderId)

def findOrderByOfflineScoped (db : DB) (k : String) (shopId : Nat) : Option Order :=
  db.orders.find? (fun o => o.offlineId == some k && o.shopId == shopId)

def findCustomerScoped (db : DB) (customerId shopId : Nat) : Option Customer :=
  db.customers.find? (fun c => c.cid == customerId && c.shopId == shopId)

def findShopById (db : DB) (shopId : Nat) : Option Shop :=
  db.shops.find? (fun s => s.sid == shopId)

def findPaymentByOffline (db : DB) (k : String) : Option Payment :=
  db.payments.find? (fun p => p.offlineId == some k)

/-! ## Store writes.

`insertOrder` / `insertPayment` model Mongoose `create`: schema validators
(`min: 0` on the money fields) run, the global sparse unique index on
`offlineId` is enforced (duplicate-key errors surface through the error
middleware as `"Duplicate field value entered"`, 400), the document id is
assigned, and for orders the `pre("save")` hook recomputes `balance`.
`saveOrder` models `document.save()` on an existing order: the hook runs and
the stored document is replaced. -/

def errDuplicateKey : ErrorResponse := ⟨"Duplicate field value entered", 400⟩

def errOrderValidation : ErrorResponse := ⟨"Order validation failed", 400⟩

def errPaymentValidation : ErrorResponse := ⟨"Payment validation failed", 400⟩

def applyPreSave (o : Order) : Order := { o with balance := o.totalAmount - o.amountPaid }

def hasOrderOffline (db : DB) (k : Option String) : Bool :=
  match k with
  | some s => db.orders.any (fun x => x.offlineId == some s)
  | none => false

def hasPaymentOffline (db : DB) (k : Option String) : Bool :=
  match k with
  | some s => db.payments.any (fun x => x.offlineId == some s)
  | none => false

def insertOrder (db : DB) (o : Order) : Except ErrorResponse (Order × DB) :=
  if o.totalAmount < 0 ∨ o.amountPaid < 0 then .error errOrderValidation
  else if hasOrderOffline db o.offlineId then .error errDuplicateKey
  else
    let saved := applyPreSave { o with oid := db.nextId }
    .ok (saved, { db with orders := db.orders ++ [saved], nextId := db.nextId + 1 })

def insertPayment (db : DB) (p : Payment) : Except ErrorResponse (Payment × DB) :=
  if p.amount < 0 then .error errPaymentValidation
  else if hasPaymentOffline db p.offlineId then .error errDuplicateKey
  else
    let saved := { p with pid := db.nextId }
    .ok (saved, { db with payments := db.payments ++ [saved], nextId := db.nextId + 1 })

def saveOrder (db : DB) (o : Order) : DB :=
  { db with orders := updateFirst (fun x => x.oid == o.oid) (fun _ => applyPreSave o) db.orders }

/-! ## createOrder (orderController.js).

Customer must exist in the caller's shop; the idempotency lookup is scoped to
the shop; order plus initial payment are created inside one transaction
(all-or-nothing: on any failure the whole `db` is left unchanged). -/

structure CreateOrderReq where
  customerId : Nat
  items : List OrderItem
  totalAmount : Int
  amountPaid : Int
  offlineId : Option String
deriving DecidableEq, Repr

inductive CreateOrderRes
  | created (order : Order)
  | alreadySynced (order : Order)
  | err (e : ErrorResponse)
deriving DecidableEq, Repr

def errCustomerNotFound : ErrorResponse :=
  ⟨"Customer not found or does not belong to your shop", 404⟩

def newOrderOf (user : User) (req : CreateOrderReq) : Order :=
  { oid := 0, shopId := user.shopId, customerId := req.customerId,
    status := if req.amountPaid > 0 then OrderStatus.PROCESSING else OrderStatus.CREATED,
    items := req.items, totalAmount := req.totalAmount, amountPaid := req.amountPaid,
    balance := 0, pickupPinHash := none, createdBy := user.uid,
    collectedBy := none, collectedAt := none, offlineId := req.offlineId }

def initialPaymentOf (user : User) (req : CreateOrderReq) (orderId : Nat) : Payment :=
  { pid := 0, orderId := orderId, amount := req.amountPaid,
    method := PaymentMethod.CASH, receivedBy := user.uid,
    offlineId := req.offlineId.map (fun k => k ++ "_pay") }

def createOrderTxn (db : DB) (user : User) (req : CreateOrderReq) : CreateOrderRes × DB :=
  match insertOrder db (newOrderOf user req) with
  | .error e => (.err e, db)
  | .ok (createdOrder, db1) =>
    if req.amountPaid > 0 then
      match insertPayment db1 (initialPaymentOf user req createdOrder.oid) with
      | .error e => (.err e, db)
      | .ok (_, db2) => (.created createdOrder, db2)
    else (.created createdOrder, db1)

def createOrder (db : DB) (user : User) (req : CreateOrderReq) : CreateOrderRes × DB :=
  match findCustomerScoped db req.customerId user.shopId with
  | none => (.err errCustomerNotFound, db)
  | some _ =>
    match req.offlineId with
    | some k =>
      match findOrderByOfflineScoped db k user.shopId with
      | some existingOrder => (.alreadySynced existingOrder, db)
      | none => createOrderTxn db user req
    | none => createOrderTxn db user req

/-! ## recordPayment (paymentController.js).

The controller is split into the phase that only reads (validation and
idempotency check, against `db0`) and the phase that writes (the atomic
`findOneAndUpdate` plus the recheck and the payment insert, against `db1`).
`recordPayment` is the sequential execution (`db0 = db1`); keeping the two
states distinct lets us reason about an interleaved write between the initial
read and the conditional update, exactly the race the code defends against.

Faithful details: the `$set` for the CREATED → PROCESSING advance uses the
status from the *initial* read (`order.status` captured before the update);
`findOneAndUpdate` runs neither validators nor the `pre("save")` hook, so the
stored `balance` field is not recomputed; and when the payment insert fails
after the order-side update, the order update is not rolled back. -/

structure RecordPaymentReq where
  orderId : Nat
  amount : Int
  method : Option PaymentMethod
  offlineId : Option String
deriving DecidableEq, Repr

inductive RecordPaymentRes
  | created (payment : Payment)
  | alreadySynced (payment : Payment)
  | err (e : ErrorResponse)
deriving DecidableEq, Repr

def errAmountNotPositive : ErrorResponse := ⟨"Payment amount must be a positive number", 400⟩

def errOrderNotFound : ErrorResponse := ⟨"Order not found", 404⟩

def errOrderCollected : ErrorResponse := ⟨"Cannot pay for collected order", 400⟩

def errExceedsBalance (amount bal : Int) : ErrorResponse :=
  ⟨s!"Payment amount ({amount}) exceeds remaining balance ({bal})", 400⟩

def errRaceRetry : ErrorResponse := ⟨"Payment could not be processed. Please try again.", 409⟩

def paymentUpdateFilter (user : User) (req : RecordPaymentReq) (o : Order) : Bool :=
  o.oid == req.orderId && o.shopId == user.shopId &&
    !(o.status == OrderStatus.COLLECTED) && decide (o.amountPaid + req.amount ≤ o.totalAmount)

def applyPaymentUpdate (preStatus : OrderStatus) (amount : Int) (o : Order) : Order :=
  { o with amountPaid := o.amountPaid + amount,
           status := if preStatus == OrderStatus.CREATED then OrderStatus.PROCESSING
                     else o.status }

def dedupLookup (db : DB) (user : User) (req : RecordPaymentReq) : Option Payment :=
  match req.offlineId with
  | none => none
  | some k =>
    match findPaymentByOffline db k with
    | none => none
    | some p =>
      if (findOrderById db p.orderId).map Order.shopId == some user.shopId then some p
      else none

def orderSideUpdate (db : DB) (user : User) (req : RecordPaymentReq)
    (preStatus : OrderStatus) : DB :=
  let os := updateFirst (paymentUpdateFilter user req)
    (applyPaymentUpdate preStatus req.amount) db.orders
  { db with orders := os }

def newPaymentOf (user : User) (req : RecordPaymentReq) : Payment :=
  { pid := 0, orderId := req.orderId, amount := req.amount,
    method := req.method.getD PaymentMethod.CASH, receivedBy := user.uid,
    offlineId := req.offlineId }

def recordPaymentWrite (db : DB) (user : User) (req : RecordPaymentReq)
    (preStatus : OrderStatus) : RecordPaymentRes × DB :=
  match db.orders.find? (paymentUpdateFilter user req) with
  | some _ =>
    let db1 : DB := orderSideUpdate db user req preStatus
    match insertPayment db1 (newPaymentOf user req) with
    | .error e => (.err e, db1)
    | .ok (p, db2) => (.created p, db2)
  | none =>
    match findOrderById db req.orderId with
    | none => (.err errOrderNotFound, db)
    | some recheck =>
      if recheck.status == OrderStatus.COLLECTED then (.err errOrderCollected, db)
      else
        let newBalance := recheck.totalAmount - recheck.amountPaid
        if req.amount > newBalance then (.err (errExceedsBalance req.amount newBalance), db)
        else (.err errRaceRetry, db)

def recordPaymentTwoPhase (db0 db1 : DB) (user : User) (req : RecordPaymentReq) :
    RecordPaymentRes × DB :=
  if req.amount ≤ 0 then (.err errAmountNotPositive, db1)
  else
    match findOrderScoped db0 req.orderId user.shopId with
    | none => (.err errOrderNotFound, db1)
    | some order =>
      if order.status == OrderStatus.COLLECTED then (.err errOrderCollected, db1)
      else
        let currentBalance := order.totalAmount - order.amountPaid
        if req.amount > currentBalance then
          (.err (errExceedsBalance req.amount currentBalance), db1)
        else
          match dedupLookup db0 user req with
          | some p => (.alreadySynced p, db1)
          | none => recordPaymentWrite db1 user req order.status

def recordPayment (db : DB) (user : User) (req : RecordPaymentReq) : RecordPaymentRes × DB :=
  recordPaymentTwoPhase db db user req

/-! ## markReady (orderController.js).

Generates the PIN, stores its bcrypt hash, moves the order to READY and
saves.  The HTTP response contains only the saved order and a fixed message;
the JS code has a TODO for sending the PIN by SMS and never includes the
plaintext PIN in the response. -/

inductive MarkReadyRes
  | ok (order : Order) (message : String)
  | err (e : ErrorResponse)
deriving DecidableEq, Repr

def errMustBeProcessing : ErrorResponse := ⟨"Order must be Processing or Created", 400⟩

def markReadyMessage : String := "Order marked as ready. PIN has been sent to customer."

def markReady (db : DB) (user : User) (orderId : Nat) (r : Nat) : MarkReadyRes × DB :=
  match findOrderScoped db orderId user.shopId with
  | none => (.err errOrderNotFound, db)
  | some order =>
    if !(order.status == OrderStatus.PROCESSING) && !(order.status == OrderStatus.CREATED) then
      (.err errMustBeProcessing, db)
    else
      let plainPin := generatePin r
      let updated : Order :=
        { order with pickupPinHash := some (hashPin plainPin), status := OrderStatus.READY }
      (.ok (applyPreSave updated) markReadyMessage, saveOrder db updated)

/-! ## collectOrder (orderController.js).

Status check, then balance check (against the *stored* `balance` field),
then PIN verification; on success the status move to COLLECTED and the hash
clearing happen in one `save`. -/

inductive CollectOrderRes
  | ok (order : Order)
  | err (e : ErrorResponse)
deriving DecidableEq, Repr

def errNotReady : ErrorResponse := ⟨"Order is not ready for pickup", 400⟩

def errInvalidPin : ErrorResponse := ⟨"Invalid Pickup PIN", 401⟩

def errOutstanding (bal : Int) : ErrorResponse :=
  ⟨s!"Cannot collect. Outstanding balance: {bal}", 400⟩

def collectedUpdate (order : Order) (user : User) (now : Nat) : Order :=
  { order with
    status := OrderStatus.COLLECTED
    collectedBy := some user.uid
    collectedAt := some now
    pickupPinHash := none }

def collectOrder (db : DB) (user : User) (orderId : Nat) (pin : String) (now : Nat) :
    CollectOrderRes × DB :=
  match findOrderScoped db orderId user.shopId with
  | none => (.err errOrderNotFound, db)
  | some order =>
    if !(order.status == OrderStatus.READY) then (.err errNotReady, db)
    else if order.balance > 0 then (.err (errOutstanding order.balance), db)
    else
      match order.pickupPinHash with
      | none => (.err errInvalidPin, db)
      | some h =>
        if !(verifyPin pin h) then (.err errInvalidPin, db)
        else (.ok (applyPreSave (collectedUpdate order user now)),
          saveOrder db (collectedUpdate order user now))

/-! ## Subscription gate (middlewares/subscriptionCheck) and route pipelines.

`checkSubscription` bypasses admins, rejects any request of a SUSPENDED shop
and any non-GET request of a GRACE shop.  Per the route files actually wired
in app.js: paymentRoutes.js mounts `checkSubscription` before recordPayment,
while orderRoutes.js mounts only `protect`/`authorize`/field validators — the
order operations are NOT subscription-gated.  Non-admin callers are modelled
as always carrying a shopId (`protect` guarantees an authenticated user). -/

def errShopNotFound : ErrorResponse := ⟨"Shop not found", 404⟩

def errTenantSuspended : ErrorResponse :=
  ⟨"Shop is suspended. Cannot perform this operation. Please contact support.", 403⟩

def errTenantInGrace : ErrorResponse :=
  ⟨"Shop subscription is in grace period. Please renew your subscription to continue.", 403⟩

def checkSubscription (db : DB) (user : User) (isGet : Bool) : Option ErrorResponse :=
  if user.role == UserRole.ADMIN then none
  else
    match findShopById db user.shopId with
    | none => some errShopNotFound
    | some shop =>
      if shop.subscriptionStatus == SubscriptionStatus.SUSPENDED then some errTenantSuspended
      else if shop.subscriptionStatus == SubscriptionStatus.GRACE && !isGet then
        some errTenantInGrace
      else none

def errItemsRequired : ErrorResponse := ⟨"Items must be an array", 400⟩

def errPinRequired : ErrorResponse := ⟨"PIN is required", 400⟩

def recordPaymentRoute (db : DB) (user : User) (req : RecordPaymentReq) :
    RecordPaymentRes × DB :=
  match checkSubscription db user false with
  | some e => (.err e, db)
  | none => recordPayment db user req

def createOrderRoute (db : DB) (user : User) (req : CreateOrderReq) : CreateOrderRes × DB :=
  if req.items.isEmpty then (.err errItemsRequired, db) else createOrder db user req

def markReadyRoute (db : DB) (user : User) (orderId r : Nat) : MarkReadyRes × DB :=
  markReady db user orderId r

def collectOrderRoute (db : DB) (user : User) (orderId : Nat) (pin : String) (now : Nat) :
    CollectOrderRes × DB :=
  if pin == "" then (.err errPinRequired, db) else collectOrder db user orderId pin now

/-! ## Derived state predicates used by the claims. -/

def paymentsSum (db : DB) (orderId : Nat) : Int :=
  ((db.payments.filter (fun p => p.orderId == orderId)).map Payment.amount).sum

def SumInv (db : DB) : Prop := ∀ o ∈ db.orders, paymentsSum db o.oid = o.amountPaid

def BalanceInv (db : DB) : Prop :=
  ∀ o ∈ db.orders, 0 ≤ o.amountPaid ∧ o.amountPaid ≤ o.totalAmount ∧
    o.balance = o.totalAmount - o.amountPaid

def FreshIds (db : DB) : Prop :=
  (∀ o ∈ db.orders, o.oid < db.nextId) ∧ (∀ p ∈ db.payments, p.orderId < db.nextId)

instance (db : DB) : Decidable (SumInv db) :=
  inferInstanceAs (Decidable (∀ o ∈ db.orders, paymentsSum db o.oid = o.amountPaid))

instance (db : DB) : Decidable (BalanceInv db) :=
  inferInstanceAs (Decidable (∀ o ∈ db.orders, 0 ≤ o.amountPaid ∧ o.amountPaid ≤ o.totalAmount ∧
    o.balance = o.totalAmount - o.amountPaid))

instance (db : DB) : Decidable (FreshIds db) :=
  inferInstanceAs (Decidable ((∀ o ∈ db.orders, o.oid < db.nextId) ∧
    (∀ p ∈ db.payments, p.orderId < db.nextId)))

/-! ## Result projections used in claim statements. -/

def createdOrderOf : CreateOrderRes → Option Order
  | CreateOrderRes.created o => some o
  | _ => none

def createdPaymentOf : RecordPaymentRes → Option Payment
  | RecordPaymentRes.created p => some p
  | _ => none

/-! ## Concrete states used by counterexamples, evaluations and witnesses. -/

def itemShirt : OrderItem := ⟨"Shirt", "M", 50, 2⟩

def userC1 : User := ⟨100, 1, UserRole.OWNER⟩

def dbC1a : DB := ⟨[], [], [⟨10, 1⟩], [⟨1, SubscriptionStatus.ACTIVE⟩], 20⟩

def reqC1a : CreateOrderReq := ⟨10, [itemShirt], 100, 200, none⟩

def orderC1 : Order :=
  ⟨20, 1, 10, OrderStatus.PROCESSING, [itemShirt], 100, 0, 100, none, 100, none, none, none⟩

def dbC1b : DB := ⟨[orderC1], [], [⟨10, 1⟩], [⟨1, SubscriptionStatus.ACTIVE⟩], 30⟩

def reqC1b : RecordPaymentReq := ⟨20, 50, none, none⟩

def userC2 : User := ⟨100, 1, UserRole.OWNER⟩

def orderC2 : Order :=
  ⟨20, 1, 10, OrderStatus.PROCESSING, [itemShirt], 100, 50, 50, none, 100, none, none, none⟩

def dbC2 : DB := ⟨[orderC2], [], [⟨10, 1⟩], [⟨1, SubscriptionStatus.ACTIVE⟩], 30⟩

def reqC2 : RecordPaymentReq := ⟨20, 75, none, none⟩

def userC3 : User := ⟨100, 1, UserRole.OWNER⟩

def orderC3 : Order :=
  ⟨20, 1, 10, OrderStatus.READY, [itemShirt], 100, 100, 0, some (hashPin "482913"), 100,
    none, none, none⟩

def dbC3 : DB := ⟨[orderC3], [], [⟨10, 1⟩], [⟨1, SubscriptionStatus.ACTIVE⟩], 30⟩

def orderC3done : Order :=
  ⟨20, 1, 10, OrderStatus.COLLECTED, [itemShirt], 100, 100, 0, none, 100, some 100, some 7, none⟩

def dbC3after : DB := { dbC3 with orders := [orderC3done] }

def userC4 : User := ⟨100, 1, UserRole.OWNER⟩

def orderC4 : Order :=
  ⟨20, 1, 10, OrderStatus.PROCESSING, [itemShirt], 100, 0, 100, none, 100, none, none, none⟩

def dbC4 : DB := ⟨[orderC4], [], [⟨10, 1⟩], [⟨1, SubscriptionStatus.ACTIVE⟩], 30⟩

def reqC4 : RecordPaymentReq := ⟨20, 75, none, some "k"⟩

def custC4 : Customer := ⟨10, 1⟩

def dbC4b : DB := ⟨[], [], [custC4], [⟨1, SubscriptionStatus.ACTIVE⟩], 20⟩

def reqC4b : CreateOrderReq := ⟨10, [itemShirt], 100, 0, some "ord1"⟩

def orderC4created : Order :=
  ⟨20, 1, 10, OrderStatus.CREATED, [itemShirt], 100, 0, 100, none, 100, none, none, some "ord1"⟩

def dbC4bAfter : DB := { dbC4b with orders := [orderC4created], nextId := 21 }

def reqC4c : RecordPaymentReq := ⟨20, 30, none, some "k2"⟩

def payC4c : Payment := ⟨30, 20, 30, PaymentMethod.CASH, 100, some "k2"⟩

def orderC4afterPay : Order := { orderC4 with amountPaid := 30 }

def dbC4afterPay : DB :=
  { dbC4 with orders := [orderC4afterPay], payments := [payC4c], nextId := 31 }

def userC5 : User := ⟨100, 1, UserRole.OWNER⟩

def orderC5 : Order :=
  ⟨20, 2, 11, OrderStatus.PROCESSING, [itemShirt], 100, 0, 100, none, 101, none, none, none⟩

def dbC5 : DB := ⟨[orderC5], [], [⟨11, 2⟩],
  [⟨1, SubscriptionStatus.ACTIVE⟩, ⟨2, SubscriptionStatus.ACTIVE⟩], 30⟩

def userC6 : User := ⟨100, 1, UserRole.OWNER⟩

def orderC6 : Order :=
  ⟨20, 1, 10, OrderStatus.PROCESSING, [itemShirt], 100, 100, 0, none, 100, none, none, none⟩

def dbC6 : DB := ⟨[orderC6], [], [⟨10, 1⟩], [⟨1, SubscriptionStatus.ACTIVE⟩], 30⟩

def orderC6ready : Order :=
  { orderC6 with status := OrderStatus.READY, pickupPinHash := some (hashPin "100000") }

def dbC6after : DB := { dbC6 with orders := [orderC6ready] }

def userC7 : User := ⟨100, 1, UserRole.OWNER⟩

def orderC7 : Order :=
  ⟨20, 1, 10, OrderStatus.PROCESSING, [itemShirt], 100, 100, 0, none, 100, none, none, none⟩

def dbC7 : DB := ⟨[orderC7], [], [⟨10, 1⟩], [⟨1, SubscriptionStatus.SUSPENDED⟩], 30⟩

def orderC7ready : Order :=
  { orderC7 with status := OrderStatus.READY, pickupPinHash := some (hashPin "100000") }

def dbC7after : DB := { dbC7 with orders := [orderC7ready] }

def dbC7grace : DB := ⟨[orderC7], [], [⟨10, 1⟩], [⟨1, SubscriptionStatus.GRACE⟩], 30⟩

def userC8 : User := ⟨101, 2, UserRole.OWNER⟩

def orderC8A : Order :=
  ⟨20, 1, 10, OrderStatus.PROCESSING, [itemShirt], 100, 10, 90, none, 100, none, none, none⟩

def orderC8B : Order :=
  ⟨21, 2, 11, OrderStatus.PROCESSING, [itemShirt], 100, 0, 100, none, 101, none, none, none⟩

def payC8 : Payment := ⟨30, 20, 10, PaymentMethod.CASH, 100, some "k"⟩

def dbC8 : DB := ⟨[orderC8A, orderC8B], [payC8], [⟨10, 1⟩, ⟨11, 2⟩],
  [⟨1, SubscriptionStatus.ACTIVE⟩, ⟨2, SubscriptionStatus.ACTIVE⟩], 40⟩

def reqC8 : RecordPaymentReq := ⟨21, 50, none, some "k"⟩

def orderC8Bpaid : Order := { orderC8B with amountPaid := 50 }

def dbC8after : DB := { dbC8 with orders := [orderC8A, orderC8Bpaid] }

def reqC8w : RecordPaymentReq := ⟨20, 10, none, some "k3"⟩

def payC8w : Payment := ⟨31, 20, 10, PaymentMethod.CASH, 100, some "k3"⟩

def orderC8w : Order := { orderC4afterPay with amountPaid := 40 }

def dbC8wAfter : DB :=
  { dbC4afterPay with orders := [orderC8w], payments := [payC4c, payC8w], nextId := 32 }

/-! # Theorems

First the generic lemmas about the list helpers, then one theorem per claim
(with its counterexample and witness where applicable). -/

theorem updateFirst_of_find?_none {p : α → Bool} {f : α → α} {l : List α}
    (h : l.find? p = none) : updateFirst p f l = l := by
  induction l with
  | nil => rfl
  | cons x xs ih =>
    rw [List.find?_cons] at h
    match hx : p x with
    | true => rw [hx] at h; exact absurd h (by simp)
    | false =>
      rw [hx] at h
      simp [updateFirst, hx, ih h]

theorem find?_decomp {p : α → Bool} {l : List α} {y : α}
    (h : l.find? p = some y) :
    ∃ l₁ l₂, l = l₁ ++ y :: l₂ ∧ (∀ z ∈ l₁, p z = false) ∧ p y = true := by
  induction l with
  | nil => exact absurd h (by simp)
  | cons x xs ih =>
    rw [List.find?_cons] at h
    match hx : p x with
    | true =>
      rw [hx] at h
      refine ⟨[], xs, ?_, ?_, ?_⟩
      · simpa using (Option.some.inj h) ▸ rfl
      · intro z hz; exact absurd hz (by simp)
      · rw [← Option.some.inj h]; exact hx
    | false =>
      rw [hx] at h
      obtain ⟨l₁, l₂, heq, hall, hy⟩ := ih h
      exact ⟨x :: l₁, l₂, by rw [heq]; rfl,
        by intro z hz
           rcases List.mem_cons.mp hz with hz | hz
           · rw [hz]; exact hx
           · exact hall z hz, hy⟩

theorem updateFirst_decomp {p : α → Bool} {f : α → α} {l l₁ l₂ : List α} {y : α}
    (heq : l = l₁ ++ y :: l₂) (hall : ∀ z ∈ l₁, p z = false) (hy : p y = true) :
    updateFirst p f l = l₁ ++ f y :: l₂ := by
  subst heq
  induction l₁ with
  | nil => simp [updateFirst, hy]
  | cons x xs ih =>
    have hx : p x = false := hall x (by simp)
    simp only [List.cons_append, updateFirst, hx, Bool.false_eq_true, if_false]
    exact congrArg (x :: ·) (ih (fun z hz => hall z (List.mem_cons_of_mem x hz)))

theorem decimalDigitsAux_fuel {f g n : Nat} (hf : n < f) (hg : n < g) :
    decimalDigitsAux f n = decimalDigitsAux g n := by
  induction f generalizing n g with
  | zero => omega
  | succ f ih =>
    match g, hg with
    | g + 1, hg =>
      by_cases h : n < 10
      · simp [decimalDigitsAux, h]
      · have h10 : 10 ≤ n := Nat.le_of_not_lt h
        have hd : n / 10 < n := Nat.div_lt_self (by omega) (by omega)
        simp only [decimalDigitsAux, if_neg h]
        exact congrArg (n % 10 :: ·) (ih (g := g) (n := n / 10) (by omega) (by omega))

theorem decimalDigits_lt10 {n : Nat} (h : n < 10) : decimalDigits n = [n] := by
  show (if n < 10 then [n] else n % 10 :: decimalDigitsAux n (n / 10)) = [n]
  rw [if_pos h]

theorem decimalDigits_ge10 {n : Nat} (h : 10 ≤ n) :
    decimalDigits n = n % 10 :: decimalDigits (n / 10) := by
  have hd : n / 10 < n := Nat.div_lt_self (by omega) (by omega)
  show (if n < 10 then [n] else n % 10 :: decimalDigitsAux n (n / 10)) = _
  rw [if_neg (by omega)]
  exact congrArg (n % 10 :: ·)
    (decimalDigitsAux_fuel (f := n) (g := n / 10 + 1) (by omega) (Nat.lt_succ_self _))

theorem decimalDigits_six {n : Nat} (h1 : 100000 ≤ n) (h2 : n ≤ 999999) :
    decimalDigits n = [n % 10, n / 10 % 10, n / 10 / 10 % 10, n / 10 / 10 / 10 % 10,
      n / 10 / 10 / 10 / 10 % 10, n / 10 / 10 / 10 / 10 / 10] := by
  rw [decimalDigits_ge10 (by omega), decimalDigits_ge10 (by omega),
      decimalDigits_ge10 (by omega), decimalDigits_ge10 (by omega),
      decimalDigits_ge10 (by omega), decimalDigits_lt10 (by omega)]

theorem digitChar_ne_zero {d : Nat} (h1 : 1 ≤ d) (h2 : d ≤ 9) : Nat.digitChar d ≠ '0' := by
  interval_cases d <;> decide

theorem digitChar_isDigit {d : Nat} (h : d < 10) : (Nat.digitChar d).isDigit = true := by
  interval_cases d <;> decide

theorem digitChar_nine {d : Nat} (h : d < 10) : Nat.digitChar d = '9' → d = 9 := by
  interval_cases d <;> decide

/-- C10: every value returned by `generatePin` is a string of exactly 6 decimal
digits with no leading zero; the underlying `crypto.randomInt(100000, 999999)`
value lies in [100000, 999998] because the upper bound is exclusive, so the
code "999999" is never generated. -/
theorem laundro_C10_generatePin_props (r : Nat) :
    (generatePin r).length = 6 ∧
    (generatePin r).data.head? ≠ some '0' ∧
    (∀ c ∈ (generatePin r).data, c.isDigit = true) ∧
    100000 ≤ randomInt 100000 999999 r ∧
    randomInt 100000 999999 r ≤ 999998 ∧
    generatePin r = jsNatToString (randomInt 100000 999999 r) ∧
    generatePin r ≠ "999999" := by
  have hmod : r % 899999 < 899999 := Nat.mod_lt _ (by omega)
  have hb1 : 100000 ≤ randomInt 100000 999999 r := by unfold randomInt; omega
  have hb2 : randomInt 100000 999999 r ≤ 999998 := by unfold randomInt; omega
  set n := randomInt 100000 999999 r with hn
  have hdig := decimalDigits_six hb1 (by omega)
  have hs : generatePin r =
      ⟨[Nat.digitChar (n / 10 / 10 / 10 / 10 / 10), Nat.digitChar (n / 10 / 10 / 10 / 10 % 10),
        Nat.digitChar (n / 10 / 10 / 10 % 10), Nat.digitChar (n / 10 / 10 % 10),
        Nat.digitChar (n / 10 % 10), Nat.digitChar (n % 10)]⟩ := by
    show jsNatToString n = _
    rw [jsNatToString, hdig]
    rfl
  have hd5a : 1 ≤ n / 10 / 10 / 10 / 10 / 10 := by omega
  have hd5b : n / 10 / 10 / 10 / 10 / 10 ≤ 9 := by omega
  refine ⟨?_, ?_, ?_, hb1, hb2, rfl, ?_⟩
  · rw [hs]; rfl
  · rw [hs]
    intro hcontra
    exact digitChar_ne_zero hd5a hd5b (Option.some.inj hcontra)
  · rw [hs]
    intro c hc
    simp only [List.mem_cons, List.not_mem_nil, or_false] at hc
    rcases hc with h | h | h | h | h | h <;> rw [h] <;>
      exact digitChar_isDigit (by omega)
  · rw [hs]
    intro he
    have hdata : [Nat.digitChar (n / 10 / 10 / 10 / 10 / 10),
        Nat.digitChar (n / 10 / 10 / 10 / 10 % 10), Nat.digitChar (n / 10 / 10 / 10 % 10),
        Nat.digitChar (n / 10 / 10 % 10), Nat.digitChar (n / 10 % 10),
        Nat.digitChar (n % 10)] = ['9', '9', '9', '9', '9', '9'] :=
      congrArg String.data he
    simp only [List.cons.injEq, and_true] at hdata
    obtain ⟨e5, e4, e3, e2, e1, e0⟩ := hdata
    have := digitChar_nine (by omega) e5
    have := digitChar_nine (by omega) e4
    have := digitChar_nine (by omega) e3
    have := digitChar_nine (by omega) e2
    have := digitChar_nine (by omega) e1
    have := digitChar_nine (by omega) e0
    omega

/-- C1: the claimed invariant `0 ≤ amountPaid ≤ totalAmount` and
`balance = totalAmount − amountPaid` does NOT hold on the code.  Evaluation at
the failing inputs: (a) `createOrder` accepts a client-supplied initial
`amountPaid = 200` against `totalAmount = 100` (no upper-bound validation), so
the persisted order has `amountPaid > totalAmount` and `balance = -100`;
(b) a successful `recordPayment` of 50 increments `amountPaid` via
`findOneAndUpdate`, which does not run the `pre("save")` hook, so the
persisted `balance` stays 100 instead of being recomputed to 50. -/
theorem laundro_C1_balance_invariant_eval :
    ((createdOrderOf (createOrder dbC1a userC1 reqC1a).1).map
        (fun o => (o.amountPaid, o.totalAmount, o.balance)) = some (200, 100, -100)) ∧
    ((createdPaymentOf (recordPayment dbC1b userC1 reqC1b).1).map Payment.amount = some 50) ∧
    ((findOrderById (recordPayment dbC1b userC1 reqC1b).2 20).map
        (fun o => (o.amountPaid, o.balance)) = some (50, 100)) := by
  decide

/-- C6: evaluation of `markReady` at a PROCESSING fully paid order: the order
transitions to READY and the bcrypt hash of the generated PIN is persisted,
but the HTTP response consists only of the saved order (carrying the hash)
and a fixed message — the plaintext PIN is not part of the response, and the
code sends it nowhere else (the SMS dispatch is a TODO). -/
theorem laundro_C6_markready_no_plaintext_eval :
    markReady dbC6 userC6 20 0 = (MarkReadyRes.ok orderC6ready markReadyMessage, dbC6after) ∧
    orderC6ready.pickupPinHash = some (hashPin (generatePin 0)) ∧
    markReadyMessage = "Order marked as ready. PIN has been sent to customer." := by
  refine ⟨by decide, by decide, rfl⟩

theorem findOrderScoped_none {db : DB} {oid sid : Nat}
    (h : ∀ o ∈ db.orders, o.oid = oid → o.shopId ≠ sid) :
    findOrderScoped db oid sid = none := by
  rw [findOrderScoped, List.find?_eq_none]
  intro o ho
  simp only [Bool.and_eq_true, beq_iff_eq, not_and]
  intro h1 h2
  exact h o ho h1 h2

theorem findCustomerScoped_none {db : DB} {cid sid : Nat}
    (h : ∀ c ∈ db.customers, c.cid = cid → c.shopId ≠ sid) :
    findCustomerScoped db cid sid = none := by
  rw [findCustomerScoped, List.find?_eq_none]
  intro c hc
  simp only [Bool.and_eq_true, beq_iff_eq, not_and]
  intro h1 h2
  exact h c hc h1 h2

/-- C5: for every operation, a target orderId (or customerId) that exists but
belongs to a different tenant than the caller is indistinguishable from a
target that does not exist at all: the hypothesis covers both situations
(every order/customer with that id is outside the caller's tenant), and the
result is the same `Order not found` / `Customer not found` response with an
unchanged store — never a distinct forbidden signal.  RecordPayment validates
the amount before touching the store, hence the positivity hypothesis. -/
theorem laundro_C5_tenant_isolation :
    (∀ (db : DB) (user : User) (orderId r : Nat),
      (∀ o ∈ db.orders, o.oid = orderId → o.shopId ≠ user.shopId) →
      markReady db user orderId r = (MarkReadyRes.err errOrderNotFound, db)) ∧
    (∀ (db : DB) (user : User) (orderId now : Nat) (pin : String),
      (∀ o ∈ db.orders, o.oid = orderId → o.shopId ≠ user.shopId) →
      collectOrder db user orderId pin now = (CollectOrderRes.err errOrderNotFound, db)) ∧
    (∀ (db : DB) (user : User) (req : RecordPaymentReq),
      0 < req.amount →
      (∀ o ∈ db.orders, o.oid = req.orderId → o.shopId ≠ user.shopId) →
      recordPayment db user req = (RecordPaymentRes.err errOrderNotFound, db)) ∧
    (∀ (db : DB) (user : User) (req : CreateOrderReq),
      (∀ c ∈ db.customers, c.cid = req.customerId → c.shopId ≠ user.shopId) →
      createOrder db user req = (CreateOrderRes.err errCustomerNotFound, db)) := by
  refine ⟨?_, ?_, ?_, ?_⟩
  · intro db user orderId r h
    rw [markReady, findOrderScoped_none h]
  · intro db user orderId now pin h
    rw [collectOrder, findOrderScoped_none h]
  · intro db user req hpos h
    rw [recordPayment, recordPaymentTwoPhase, if_neg (by omega), findOrderScoped_none h]
  · intro db user req h
    rw [createOrder, findCustomerScoped_none h]

/-- C5 witness: order 20 exists but belongs to shop 2 while the caller is in
shop 1; customer 11 likewise; all four operations answer with the plain
not-found error and leave the store unchanged. -/
theorem laundro_C5_witness :
    markReady dbC5 userC5 20 0 = (MarkReadyRes.err errOrderNotFound, dbC5) ∧
    collectOrder dbC5 userC5 20 "482913" 7 = (CollectOrderRes.err errOrderNotFound, dbC5) ∧
    recordPayment dbC5 userC5 ⟨20, 50, none, none⟩ =
      (RecordPaymentRes.err errOrderNotFound, dbC5) ∧
    createOrder dbC5 userC5 ⟨11, [itemShirt], 100, 0, none⟩ =
      (CreateOrderRes.err errCustomerNotFound, dbC5) := by
  refine ⟨laundro_C5_tenant_isolation.1 dbC5 userC5 20 0 (by decide),
    laundro_C5_tenant_isolation.2.1 dbC5 userC5 20 7 "482913" (by decide),
    laundro_C5_tenant_isolation.2.2.1 dbC5 userC5 ⟨20, 50, none, none⟩ (by decide) (by decide),
    laundro_C5_tenant_isolation.2.2.2 dbC5 userC5 ⟨11, [itemShirt], 100, 0, none⟩ (by decide)⟩

theorem insertOrder_shops (db : DB) (ss : List Shop) (o : Order) :
    insertOrder { db with shops := ss } o =
      (insertOrder db o).map (fun x => (x.1, { x.2 with shops := ss })) := by
  have h : hasOrderOffline { db with shops := ss } o.offlineId =
      hasOrderOffline db o.offlineId := rfl
  unfold insertOrder
  rw [h]
  split
  · rfl
  · split
    · rfl
    · rfl

theorem insertPayment_shops (db : DB) (ss : List Shop) (p : Payment) :
    insertPayment { db with shops := ss } p =
      (insertPayment db p).map (fun x => (x.1, { x.2 with shops := ss })) := by
  have h : hasPaymentOffline { db with shops := ss } p.offlineId =
      hasPaymentOffline db p.offlineId := rfl
  unfold insertPayment
  rw [h]
  split
  · rfl
  · split
    · rfl
    · rfl

theorem markReady_shops (db : DB) (ss : List Shop) (user : User) (orderId r : Nat) :
    markReady { db with shops := ss } user orderId r =
      ((markReady db user orderId r).1, { (markReady db user orderId r).2 with shops := ss }) := by
  have h : findOrderScoped { db with shops := ss } orderId user.shopId =
      findOrderScoped db orderId user.shopId := rfl
  unfold markReady
  rw [h]
  cases findOrderScoped db orderId user.shopId with
  | none => rfl
  | some order =>
    dsimp only
    split
    · rfl
    · rfl

theorem collectOrder_shops (db : DB) (ss : List Shop) (user : User) (orderId : Nat)
    (pin : String) (now : Nat) :
    collectOrder { db with shops := ss } user orderId pin now =
      ((collectOrder db user orderId pin now).1,
        { (collectOrder db user orderId pin now).2 with shops := ss }) := by
  have h : findOrderScoped { db with shops := ss } orderId user.shopId =
      findOrderScoped db orderId user.shopId := rfl
  unfold collectOrder
  rw [h]
  cases findOrderScoped db orderId user.shopId with
  | none => rfl
  | some order =>
    dsimp only
    split
    · rfl
    · split
      · rfl
      · cases order.pickupPinHash with
        | none => rfl
        | some hh =>
          dsimp only
          split
          · rfl
          · rfl

theorem createOrderTxn_shops (db : DB) (ss : List Shop) (user : User) (req : CreateOrderReq) :
    createOrderTxn { db with shops := ss } user req =
      ((createOrderTxn db user req).1, { (createOrderTxn db user req).2 with shops := ss }) := by
  unfold createOrderTxn
  rw [insertOrder_shops]
  cases hins : insertOrder db (newOrderOf user req) with
  | error e => rfl
  | ok pr =>
    obtain ⟨createdOrder, db1⟩ := pr
    dsimp only [Except.map]
    split
    · rw [insertPayment_shops]
      cases hins2 : insertPayment db1 (initialPaymentOf user req createdOrder.oid) with
      | error e => rfl
      | ok pr2 => rfl
    · rfl

theorem createOrder_shops (db : DB) (ss : List Shop) (user : User) (req : CreateOrderReq) :
    createOrder { db with shops := ss } user req =
      ((createOrder db user req).1, { (createOrder db user req).2 with shops := ss }) := by
  have h1 : findCustomerScoped { db with shops := ss } req.customerId user.shopId =
      findCustomerScoped db req.customerId user.shopId := rfl
  unfold createOrder
  rw [h1]
  cases findCustomerScoped db req.customerId user.shopId with
  | none => rfl
  | some c =>
    dsimp only
    cases req.offlineId with
    | none => exact createOrderTxn_shops db ss user req
    | some k =>
      have h2 : findOrderByOfflineScoped { db with shops := ss } k user.shopId =
          findOrderByOfflineScoped db k user.shopId := rfl
      dsimp only
      rw [h2]
      cases findOrderByOfflineScoped db k user.shopId with
      | none => exact createOrderTxn_shops db ss user req
      | some ex => rfl

/-- C7 amended: the subscription gate rejects a SUSPENDED tenant with the
suspension error and a GRACE tenant with the grace error, before any side
effect, on the operations where it is mounted — which per the route files is
RecordPayment only.  The order operations (CreateOrder, MarkReady,
CollectOrder) are wired without `checkSubscription`, and their behaviour is
fully independent of the shops table (hence of subscription status): changing
the shops table changes neither the response nor any other part of the
resulting store. -/
theorem laundro_C7_subscription_gate_amended :
    (∀ (db : DB) (user : User) (req : RecordPaymentReq) (shop : Shop),
      user.role ≠ UserRole.ADMIN → findShopById db user.shopId = some shop →
      shop.subscriptionStatus = SubscriptionStatus.SUSPENDED →
      recordPaymentRoute db user req = (RecordPaymentRes.err errTenantSuspended, db)) ∧
    (∀ (db : DB) (user : User) (req : RecordPaymentReq) (shop : Shop),
      user.role ≠ UserRole.ADMIN → findShopById db user.shopId = some shop →
      shop.subscriptionStatus = SubscriptionStatus.GRACE →
      recordPaymentRoute db user req = (RecordPaymentRes.err errTenantInGrace, db)) ∧
    (∀ (db : DB) (ss : List Shop) (user : User) (orderId r : Nat),
      markReady { db with shops := ss } user orderId r =
        ((markReady db user orderId r).1,
          { (markReady db user orderId r).2 with shops := ss })) ∧
    (∀ (db : DB) (ss : List Shop) (user : User) (orderId : Nat) (pin : String) (now : Nat),
      collectOrder { db with shops := ss } user orderId pin now =
        ((collectOrder db user orderId pin now).1,
          { (collectOrder db user orderId pin now).2 with shops := ss })) ∧
    (∀ (db : DB) (ss : List Shop) (user : User) (req : CreateOrderReq),
      createOrder { db with shops := ss } user req =
        ((createOrder db user req).1, { (createOrder db user req).2 with shops := ss })) := by
  refine ⟨?_, ?_, markReady_shops, collectOrder_shops, createOrder_shops⟩
  · intro db user req shop hrole hshop hstat
    have hbeq : (user.role == UserRole.ADMIN) = false := by
      cases hr : user.role == UserRole.ADMIN
      · rfl
      · exact absurd (eq_of_beq hr) hrole
    simp [recordPaymentRoute, checkSubscription, hbeq, hshop, hstat]
  · intro db user req shop hrole hshop hstat
    have hbeq : (user.role == UserRole.ADMIN) = false := by
      cases hr : user.role == UserRole.ADMIN
      · rfl
      · exact absurd (eq_of_beq hr) hrole
    simp [recordPaymentRoute, checkSubscription, hbeq, hshop, hstat]

/-- C7 witness: a payment request of the suspended shop 1 is rejected with the
suspension error; the same request under GRACE is rejected with the grace
error; the store is untouched in both cases. -/
theorem laundro_C7_witness :
    recordPaymentRoute dbC7 userC7 ⟨20, 10, none, none⟩ =
      (RecordPaymentRes.err errTenantSuspended, dbC7) ∧
    recordPaymentRoute dbC7grace userC7 ⟨20, 10, none, none⟩ =
      (RecordPaymentRes.err errTenantInGrace, dbC7grace) := by
  refine ⟨laundro_C7_subscription_gate_amended.1 dbC7 userC7 ⟨20, 10, none, none⟩
      ⟨1, SubscriptionStatus.SUSPENDED⟩ (by decide) (by decide) rfl,
    laundro_C7_subscription_gate_amended.2.1 dbC7grace userC7 ⟨20, 10, none, none⟩
      ⟨1, SubscriptionStatus.GRACE⟩ (by decide) (by decide) rfl⟩

/-- C7 counterexample: a tenant whose shop is SUSPENDED can still execute the
state-changing MarkReady operation, because orderRoutes.js does not mount the
`checkSubscription` middleware: the gate itself would reject the request, yet
the mounted route pipeline performs the transition. -/
theorem laundro_C7_counterexample :
    checkSubscription dbC7 userC7 false = some errTenantSuspended ∧
    markReadyRoute dbC7 userC7 20 0 =
      (MarkReadyRes.ok orderC7ready markReadyMessage, dbC7after) := by
  refine ⟨by decide, by decide⟩


theorem paymentUpdateFilter_decode {user : User} {req : RecordPaymentReq} {o : Order}
    (h : paymentUpdateFilter user req o = true) :
    o.oid = req.orderId ∧ o.shopId = user.shopId ∧ o.status ≠ OrderStatus.COLLECTED ∧
      o.amountPaid + req.amount ≤ o.totalAmount := by
  unfold paymentUpdateFilter at h
  simp only [Bool.and_eq_true, beq_iff_eq, Bool.not_eq_eq_eq_not, Bool.not_true,
    decide_eq_true_eq, beq_eq_false_iff_ne] at h
  exact ⟨h.1.1.1, h.1.1.2, h.1.2, h.2⟩

theorem paymentUpdateFilter_decode_false {user : User} {req : RecordPaymentReq} {o : Order}
    (h : paymentUpdateFilter user req o = false) (h1 : o.oid = req.orderId)
    (h2 : o.shopId = user.shopId) :
    o.status = OrderStatus.COLLECTED ∨
      (o.status ≠ OrderStatus.COLLECTED ∧ o.totalAmount < o.amountPaid + req.amount) := by
  by_cases hc : o.status = OrderStatus.COLLECTED
  · exact Or.inl hc
  · by_cases hlt : o.totalAmount < o.amountPaid + req.amount
    · exact Or.inr ⟨hc, hlt⟩
    · exfalso
      have htrue : paymentUpdateFilter user req o = true := by
        unfold paymentUpdateFilter
        simp only [Bool.and_eq_true, beq_iff_eq, decide_eq_true_eq]
        refine ⟨⟨⟨h1, h2⟩, ?_⟩, by omega⟩
        simp [hc]
      rw [htrue] at h
      simp at h

theorem insertPayment_ok_orders {db : DB} {p : Payment} {q : Payment} {db2 : DB}
    (h : insertPayment db p = .ok (q, db2)) : db2.orders = db.orders := by
  unfold insertPayment at h
  split at h
  · exact absurd h (by simp)
  · split at h
    · exact absurd h (by simp)
    · rw [Except.ok.injEq, Prod.mk.injEq] at h
      rw [← h.2]

/-- C2: RecordPayment changes the order side of the store only through the
single conditional update: either the store is unchanged, or the one document
matching the filter — which requires, at the write-time state,
`amountPaid + amount ≤ totalAmount` and status ≠ COLLECTED — receives the
increment.  And when the conditional update is rejected while the order still
exists in the caller's shop at write time, the operation re-reads current
state, returns the precise error (AlreadyCollected when the order was
collected, otherwise ExceedsBalance with the current balance) and leaves the
store untouched.  The two phases take separate states `db0` (initial read)
and `db1` (write), so this covers an interleaved concurrent update. -/
theorem laundro_C2_atomic_conditional_payment :
    (∀ (db0 db1 : DB) (user : User) (req : RecordPaymentReq),
      (recordPaymentTwoPhase db0 db1 user req).2.orders = db1.orders ∨
      (∃ o, db1.orders.find? (paymentUpdateFilter user req) = some o ∧
        o.oid = req.orderId ∧ o.shopId = user.shopId ∧
        o.status ≠ OrderStatus.COLLECTED ∧ o.amountPaid + req.amount ≤ o.totalAmount ∧
        ∃ st, (recordPaymentTwoPhase db0 db1 user req).2.orders =
          updateFirst (paymentUpdateFilter user req)
            (applyPaymentUpdate st req.amount) db1.orders)) ∧
    (∀ (db : DB) (user : User) (req : RecordPaymentReq) (st : OrderStatus) (o1 : Order),
      db.orders.find? (paymentUpdateFilter user req) = none →
      findOrderById db req.orderId = some o1 →
      o1.shopId = user.shopId →
      (o1.status = OrderStatus.COLLECTED ∧
        recordPaymentWrite db user req st = (RecordPaymentRes.err errOrderCollected, db)) ∨
      (o1.status ≠ OrderStatus.COLLECTED ∧ req.amount > o1.totalAmount - o1.amountPaid ∧
        recordPaymentWrite db user req st =
          (RecordPaymentRes.err (errExceedsBalance req.amount
            (o1.totalAmount - o1.amountPaid)), db))) := by
  constructor
  · intro db0 db1 user req
    unfold recordPaymentTwoPhase
    split
    · exact Or.inl rfl
    · cases findOrderScoped db0 req.orderId user.shopId with
      | none => exact Or.inl rfl
      | some order =>
        dsimp only
        split
        · exact Or.inl rfl
        · split
          · exact Or.inl rfl
          · cases dedupLookup db0 user req with
            | some p => exact Or.inl rfl
            | none =>
              dsimp only
              unfold recordPaymentWrite
              cases hf : db1.orders.find? (paymentUpdateFilter user req) with
              | none =>
                dsimp only
                cases findOrderById db1 req.orderId with
                | none => exact Or.inl rfl
                | some recheck =>
                  dsimp only
                  split
                  · exact Or.inl rfl
                  · split
                    · exact Or.inl rfl
                    · exact Or.inl rfl
              | some o =>
                obtain ⟨hoid, hshop, hstat, hle⟩ :=
                  paymentUpdateFilter_decode (List.find?_some hf)
                refine Or.inr ⟨o, rfl, hoid, hshop, hstat, hle, order.status, ?_⟩
                dsimp only
                cases hins : insertPayment (orderSideUpdate db1 user req order.status)
                    (newPaymentOf user req) with
                | error e => rfl
                | ok pr =>
                  obtain ⟨p2, db2⟩ := pr
                  dsimp only
                  exact insertPayment_ok_orders hins
  · intro db user req st o1 hnone hfind hshop
    have hfind2 := hfind
    rw [findOrderById] at hfind2
    have ho1 : o1.oid = req.orderId := by
      have := List.find?_some hfind2
      simpa using this
    have hmem : o1 ∈ db.orders := List.mem_of_find?_eq_some hfind2
    have hfalse : paymentUpdateFilter user req o1 = false := by
      rw [List.find?_eq_none] at hnone
      have := hnone o1 hmem
      simpa using this
    rcases paymentUpdateFilter_decode_false hfalse ho1 hshop with hc | ⟨hnc, hlt⟩
    · refine Or.inl ⟨hc, ?_⟩
      unfold recordPaymentWrite
      rw [hnone]
      dsimp only
      rw [hfind]
      dsimp only
      rw [if_pos (by simp [hc])]
    · refine Or.inr ⟨hnc, by omega, ?_⟩
      unfold recordPaymentWrite
      rw [hnone]
      dsimp only
      rw [hfind]
      dsimp only
      rw [if_neg (by simp [hnc]), if_pos (by omega)]

/-- C2 witness, the example from the original scenario: totalAmount 100,
amountPaid 50, RecordPayment(75): the conditional update matches nothing, the
operation reports ExceedsBalance(75, 50) and amountPaid stays 50. -/
theorem laundro_C2_witness :
    recordPaymentWrite dbC2 userC2 reqC2 OrderStatus.PROCESSING =
      (RecordPaymentRes.err (errExceedsBalance 75 50), dbC2) ∧
    (findOrderById dbC2 20).map Order.amountPaid = some 50 := by
  have h := laundro_C2_atomic_conditional_payment.2 dbC2 userC2 reqC2 OrderStatus.PROCESSING
    orderC2 (by decide) (by decide) rfl
  rcases h with ⟨hc, _⟩ | ⟨_, _, he⟩
  · exact absurd hc (by decide)
  · exact ⟨he, by decide⟩


theorem nodup_oid_unique {l₁ l₂ : List Order} {y : Order}
    (h : ((l₁ ++ y :: l₂).map Order.oid).Nodup) :
    (∀ x ∈ l₁, x.oid ≠ y.oid) ∧ (∀ x ∈ l₂, x.oid ≠ y.oid) := by
  rw [List.map_append, List.map_cons, List.nodup_append] at h
  obtain ⟨h1, h2, hd⟩ := h
  constructor
  · intro x hx heq
    exact hd (List.mem_map_of_mem _ hx) (by simp [heq])
  · intro x hx heq
    rw [List.nodup_cons] at h2
    exact h2.1 (heq ▸ List.mem_map_of_mem _ hx)

/-- C3: a successful CollectOrder requires that the order was READY in the
caller's shop with stored balance 0 and a secret verifying against the stored
hash; its effect is one save that simultaneously sets status COLLECTED and
clears the hash; and afterwards every CollectOrder attempt on that order — by
any caller, with the same or any secret — fails with an error and leaves the
store unchanged, so collection can never succeed twice. -/
theorem laundro_C3_collect_once :
    ∀ (db : DB) (user : User) (orderId now : Nat) (pin : String) (o2 : Order) (db2 : DB),
      (db.orders.map Order.oid).Nodup →
      collectOrder db user orderId pin now = (CollectOrderRes.ok o2, db2) →
      (∃ order hsh, findOrderScoped db orderId user.shopId = some order ∧
        order.status = OrderStatus.READY ∧ ¬ order.balance > 0 ∧
        order.pickupPinHash = some hsh ∧ verifyPin pin hsh = true ∧
        o2 = applyPreSave (collectedUpdate order user now) ∧
        o2.status = OrderStatus.COLLECTED ∧ o2.pickupPinHash = none ∧
        db2 = saveOrder db (collectedUpdate order user now)) ∧
      (∀ (user2 : User) (pin2 : String) (now2 : Nat),
        ∃ e, collectOrder db2 user2 orderId pin2 now2 = (CollectOrderRes.err e, db2)) := by
  intro db user orderId now pin o2 db2 hnodup hcol
  unfold collectOrder at hcol
  cases hfo : findOrderScoped db orderId user.shopId with
  | none =>
    rw [hfo] at hcol
    exact absurd hcol (by simp)
  | some order =>
    rw [hfo] at hcol
    dsimp only at hcol
    split at hcol
    · exact absurd hcol (by simp)
    · split at hcol
      · exact absurd hcol (by simp)
      · rename_i hready hbal
        cases hpin : order.pickupPinHash with
        | none =>
          rw [hpin] at hcol
          exact absurd hcol (by simp)
        | some hsh =>
          rw [hpin] at hcol
          dsimp only at hcol
          split at hcol
          · exact absurd hcol (by simp)
          · rename_i hver
            rw [Prod.mk.injEq, CollectOrderRes.ok.injEq] at hcol
            obtain ⟨ho2, hdb2⟩ := hcol
            have hready2 : order.status = OrderStatus.READY := by
              simpa using hready
            have hver2 : verifyPin pin hsh = true := by
              simpa using hver
            -- decompose the store around the found order
            have hfo2 : List.find? (fun o => o.oid == orderId && o.shopId == user.shopId)
                db.orders = some order := hfo
            obtain ⟨l₁, l₂, heq, hall, hy⟩ := find?_decomp hfo2
            have hoid : order.oid = orderId := by
              have := List.find?_some hfo2
              simp only [Bool.and_eq_true, beq_iff_eq] at this
              exact this.1
            have huniq := nodup_oid_unique (heq ▸ hnodup)
            have horders : db2.orders =
                l₁ ++ applyPreSave (collectedUpdate order user now) :: l₂ := by
              rw [← hdb2]
              unfold saveOrder
              dsimp only
              rw [updateFirst_decomp heq ?hall ?hy]
              case hall =>
                intro z hz
                have := huniq.1 z hz
                simp only [beq_eq_false_iff_ne, ne_eq]
                exact fun hzz => this hzz
              case hy => exact beq_self_eq_true order.oid
            refine ⟨⟨order, hsh, rfl, hready2, by simpa using hbal, hpin, hver2, ho2.symm,
              by rw [← ho2]; rfl, by rw [← ho2]; rfl, hdb2.symm⟩, ?_⟩
            intro user2 pin2 now2
            cases hf2 : findOrderScoped db2 orderId user2.shopId with
            | none =>
              refine ⟨errOrderNotFound, ?_⟩
              unfold collectOrder
              rw [hf2]
            | some x =>
              have hxoid : x.oid = orderId := by
                have := List.find?_some hf2
                simp only [Bool.and_eq_true, beq_iff_eq] at this
                exact this.1
              have hxmem : x ∈ db2.orders := List.mem_of_find?_eq_some hf2
              rw [horders] at hxmem
              have hx : x = applyPreSave (collectedUpdate order user now) := by
                rcases List.mem_append.mp hxmem with hx1 | hx2
                · exact absurd (hxoid.trans hoid.symm) (huniq.1 x hx1)
                · rcases List.mem_cons.mp hx2 with hx3 | hx4
                  · exact hx3
                  · exact absurd (hxoid.trans hoid.symm) (huniq.2 x hx4)
              have hxstatus : x.status = OrderStatus.COLLECTED := by
                rw [hx]
                rfl
              refine ⟨errNotReady, ?_⟩
              unfold collectOrder
              rw [hf2]
              dsimp only
              rw [if_pos (by simp [hxstatus])]


/-- C3 witness: order 20 is READY with balance 0 and hash of "482913";
collecting with "482913" succeeds once, and the immediate retry with the same
secret fails with the not-ready error and leaves the store unchanged. -/
theorem laundro_C3_witness :
    collectOrder dbC3 userC3 20 "482913" 7 = (CollectOrderRes.ok orderC3done, dbC3after) ∧
    (collectOrder dbC3after userC3 20 "482913" 8).2 = dbC3after ∧
    (collectOrder dbC3after userC3 20 "482913" 8).1 = CollectOrderRes.err errNotReady := by
  have h := laundro_C3_collect_once dbC3 userC3 20 7 "482913" orderC3done dbC3after
    (by decide) (by decide)
  refine ⟨by decide, ?_, by decide⟩
  obtain ⟨e, he⟩ := h.2 userC3 "482913" 8
  rw [he]

theorem find?_append_of_none {p : α → Bool} {l₁ l₂ : List α}
    (h : l₁.find? p = none) : (l₁ ++ l₂).find? p = l₂.find? p := by
  induction l₁ with
  | nil => rfl
  | cons x xs ih =>
    rw [List.find?_cons] at h
    match hx : p x with
    | true => rw [hx] at h; exact absurd h (by simp)
    | false =>
      rw [hx] at h
      simp only [List.cons_append, List.find?_cons, hx]
      exact ih h

theorem find?_of_decomp {p : α → Bool} {l₁ l₂ : List α} {y : α}
    (hall : ∀ z ∈ l₁, p z = false) (hy : p y = true) :
    (l₁ ++ y :: l₂).find? p = some y := by
  rw [find?_append_of_none (List.find?_eq_none.mpr ?hnone), List.find?_cons, hy]
  case hnone =>
    intro x hx
    rw [hall x hx]
    exact Bool.false_ne_true

theorem insertOrder_ok {db : DB} {o o2 : Order} {db2 : DB}
    (h : insertOrder db o = .ok (o2, db2)) :
    o2 = applyPreSave { o with oid := db.nextId } ∧
    db2 = { db with orders := db.orders ++ [o2], nextId := db.nextId + 1 } ∧
    hasOrderOffline db o.offlineId = false := by
  unfold insertOrder at h
  split at h
  · exact absurd h (by simp)
  · split at h
    · exact absurd h (by simp)
    · rename_i hdup
      rw [Except.ok.injEq, Prod.mk.injEq] at h
      refine ⟨h.1.symm, ?_, by simpa using hdup⟩
      rw [← h.2, h.1]

theorem insertPayment_ok {db : DB} {p q : Payment} {db2 : DB}
    (h : insertPayment db p = .ok (q, db2)) :
    q = { p with pid := db.nextId } ∧
    db2 = { db with payments := db.payments ++ [q], nextId := db.nextId + 1 } ∧
    hasPaymentOffline db p.offlineId = false := by
  unfold insertPayment at h
  split at h
  · exact absurd h (by simp)
  · split at h
    · exact absurd h (by simp)
    · rename_i hdup
      rw [Except.ok.injEq, Prod.mk.injEq] at h
      refine ⟨h.1.symm, ?_, by simpa using hdup⟩
      rw [← h.2, h.1]


theorem findOrderScoped_of_byId {db : DB} {oid sid : Nat} {o1 : Order}
    (h : findOrderById db oid = some o1) (hs : o1.shopId = sid) :
    findOrderScoped db oid sid = some o1 := by
  have h2 : List.find? (fun o => o.oid == oid) db.orders = some o1 := h
  obtain ⟨l₁, l₂, heq, hall, hy⟩ := find?_decomp h2
  have hy2 : (o1.oid == oid && o1.shopId == sid) = true := by
    simp only [Bool.and_eq_true, beq_iff_eq]
    exact ⟨by simpa using hy, hs⟩
  have hall2 : ∀ z ∈ l₁, (z.oid == oid && z.shopId == sid) = false := by
    intro z hz
    have := hall z hz
    simp only [beq_eq_false_iff_ne, ne_eq] at this
    simp [this]
  unfold findOrderScoped
  rw [heq]
  exact find?_of_decomp hall2 hy2


theorem createOrder_resubmit_synced :
    ∀ (db db1 : DB) (user : User) (req : CreateOrderReq) (o : Order) (k : String),
      req.offlineId = some k →
      createOrder db user req = (CreateOrderRes.created o, db1) →
      createOrder db1 user req = (CreateOrderRes.alreadySynced o, db1) := by
  intro db db1 user req o k hoff hrun
  unfold createOrder at hrun
  cases hc : findCustomerScoped db req.customerId user.shopId with
  | none =>
    rw [hc] at hrun
    exact absurd hrun (by simp)
  | some c =>
    rw [hc, hoff] at hrun
    dsimp only at hrun
    cases hfo : findOrderByOfflineScoped db k user.shopId with
    | some ex =>
      rw [hfo] at hrun
      exact absurd hrun (by simp)
    | none =>
      rw [hfo] at hrun
      unfold createOrderTxn at hrun
      cases hins : insertOrder db (newOrderOf user req) with
      | error e =>
        rw [hins] at hrun
        exact absurd hrun (by simp)
      | ok pr =>
        obtain ⟨createdOrder, dbA⟩ := pr
        rw [hins] at hrun
        dsimp only at hrun
        obtain ⟨hco, hdbA, hdup⟩ := insertOrder_ok hins
        -- the created order carries the offline token and the caller shop
        have hcoOff : createdOrder.offlineId = some k := by
          rw [hco]
          show req.offlineId = some k
          exact hoff
        have hcoShop : createdOrder.shopId = user.shopId := by
          rw [hco]
          rfl
        have hpredAll : ∀ x ∈ db.orders,
            (x.offlineId == some k && x.shopId == user.shopId) = false := by
          intro x hx
          have hh : (newOrderOf user req).offlineId = some k := hoff
          unfold hasOrderOffline at hdup
          rw [hh] at hdup
          rw [List.any_eq_false] at hdup
          have : (x.offlineId == some k) = false := by
            simpa using hdup x hx
          simp [this]
        have hpredNew : (createdOrder.offlineId == some k &&
            createdOrder.shopId == user.shopId) = true := by
          simp [hcoOff, hcoShop]
        -- case split on whether an initial payment was recorded
        by_cases hpay : req.amountPaid > 0
        · rw [if_pos hpay] at hrun
          cases hins2 : insertPayment dbA (initialPaymentOf user req createdOrder.oid) with
          | error e =>
            rw [hins2] at hrun
            exact absurd hrun (by simp)
          | ok pr2 =>
            obtain ⟨q, dbB⟩ := pr2
            rw [hins2] at hrun
            dsimp only at hrun
            rw [Prod.mk.injEq, CreateOrderRes.created.injEq] at hrun
            obtain ⟨ho, hdb1⟩ := hrun
            obtain ⟨hq, hdbB, hdup2⟩ := insertPayment_ok hins2
            have hcust1 : db1.customers = db.customers := by
              rw [← hdb1, hdbB, hdbA]
            have hord1 : db1.orders = db.orders ++ [createdOrder] := by
              rw [← hdb1, hdbB, hdbA]
            unfold createOrder
            rw [show findCustomerScoped db1 req.customerId user.shopId =
              findCustomerScoped db req.customerId user.shopId from by
                unfold findCustomerScoped
                rw [hcust1], hc, hoff]
            dsimp only
            rw [show findOrderByOfflineScoped db1 k user.shopId = some createdOrder from by
              unfold findOrderByOfflineScoped
              rw [hord1]
              exact find?_of_decomp hpredAll hpredNew]
            rw [ho]
        · rw [if_neg hpay] at hrun
          rw [Prod.mk.injEq, CreateOrderRes.created.injEq] at hrun
          obtain ⟨ho, hdb1⟩ := hrun
          have hcust1 : db1.customers = db.customers := by
            rw [← hdb1, hdbA]
          have hord1 : db1.orders = db.orders ++ [createdOrder] := by
            rw [← hdb1, hdbA]
          unfold createOrder
          rw [show findCustomerScoped db1 req.customerId user.shopId =
            findCustomerScoped db req.customerId user.shopId from by
              unfold findCustomerScoped
              rw [hcust1], hc, hoff]
          dsimp only
          rw [show findOrderByOfflineScoped db1 k user.shopId = some createdOrder from by
            unfold findOrderByOfflineScoped
            rw [hord1]
            exact find?_of_decomp hpredAll hpredNew]
          rw [ho]


theorem recordPayment_resubmit_synced :
    ∀ (db db1 : DB) (user : User) (req : RecordPaymentReq) (p : Payment) (k : String),
      req.offlineId = some k →
      recordPayment db user req = (RecordPaymentRes.created p, db1) →
      (∀ o1, findOrderById db1 req.orderId = some o1 →
        o1.shopId = user.shopId ∧ o1.status ≠ OrderStatus.COLLECTED ∧
        req.amount ≤ o1.totalAmount - o1.amountPaid) →
      recordPayment db1 user req = (RecordPaymentRes.alreadySynced p, db1) := by
  intro db db1 user req p k hoff hrun hcond
  unfold recordPayment recordPaymentTwoPhase at hrun
  split at hrun
  · exact absurd hrun (by simp)
  · rename_i hpos
    cases hfs : findOrderScoped db req.orderId user.shopId with
    | none =>
      rw [hfs] at hrun
      exact absurd hrun (by simp)
    | some order =>
      rw [hfs] at hrun
      dsimp only at hrun
      split at hrun
      · exact absurd hrun (by simp)
      · split at hrun
        · exact absurd hrun (by simp)
        · cases hd : dedupLookup db user req with
          | some pp =>
            rw [hd] at hrun
            exact absurd hrun (by simp)
          | none =>
            rw [hd] at hrun
            dsimp only at hrun
            unfold recordPaymentWrite at hrun
            cases hw : db.orders.find? (paymentUpdateFilter user req) with
            | none =>
              rw [hw] at hrun
              dsimp only at hrun
              split at hrun
              · exact absurd hrun (by simp)
              · split at hrun
                · exact absurd hrun (by simp)
                · split at hrun
                  · exact absurd hrun (by simp)
                  · exact absurd hrun (by simp)
            | some ofound =>
              rw [hw] at hrun
              dsimp only at hrun
              cases hins : insertPayment (orderSideUpdate db user req order.status)
                  (newPaymentOf user req) with
              | error e =>
                rw [hins] at hrun
                exact absurd hrun (by simp)
              | ok pr =>
                obtain ⟨q, dbB⟩ := pr
                rw [hins] at hrun
                dsimp only at hrun
                rw [Prod.mk.injEq, RecordPaymentRes.created.injEq] at hrun
                obtain ⟨hp, hdb1⟩ := hrun
                obtain ⟨hq, hdbB, hdupP⟩ := insertPayment_ok hins
                -- shape of the state after the first run
                have hpay1 : db1.payments =
                    db.payments ++ [q] := by
                  rw [← hdb1, hdbB]
                  rfl
                have hpOff : q.offlineId = some k := by
                  rw [hq]
                  show (newPaymentOf user req).offlineId = some k
                  exact hoff
                have hpOrd : q.orderId = req.orderId := by
                  rw [hq]
                  rfl
                have hanyP : (db.payments.any fun x => x.offlineId == some k) = false := by
                  have hh : (newPaymentOf user req).offlineId = some k := hoff
                  unfold hasPaymentOffline at hdupP
                  rw [hh] at hdupP
                  exact hdupP
                -- the dedup lookup in the second run finds q
                have hfp : findPaymentByOffline db1 k = some q := by
                  unfold findPaymentByOffline
                  rw [hpay1]
                  refine find?_of_decomp ?_ (by simp [hpOff])
                  intro z hz
                  rw [List.any_eq_false] at hanyP
                  simpa using hanyP z hz
                -- the target order exists in db1
                have hsome : ∃ o1, findOrderById db1 req.orderId = some o1 := by
                  have hmem : ∃ x ∈ db1.orders, (x.oid == req.orderId) = true := by
                    obtain ⟨l₁, l₂, heq, hall, hy⟩ := find?_decomp hw
                    have hupd : db1.orders = l₁ ++
                        applyPaymentUpdate order.status req.amount ofound :: l₂ := by
                      rw [← hdb1, hdbB]
                      show (orderSideUpdate db user req order.status).orders = _
                      unfold orderSideUpdate
                      dsimp only
                      exact updateFirst_decomp heq hall hy
                    refine ⟨applyPaymentUpdate order.status req.amount ofound, ?_, ?_⟩
                    · rw [hupd]
                      exact List.mem_append_right _ (List.mem_cons_self _ _)
                    · have := (paymentUpdateFilter_decode hy).1
                      simp only [beq_iff_eq]
                      show ofound.oid = req.orderId
                      exact this
                  obtain ⟨x, hx, hpx⟩ := hmem
                  have hiss : (db1.orders.find? (fun o => o.oid == req.orderId)).isSome :=
                    List.find?_isSome.mpr ⟨x, hx, hpx⟩
                  have := hiss
                  obtain ⟨o1, ho1⟩ := Option.isSome_iff_exists.mp this
                  exact ⟨o1, ho1⟩
                obtain ⟨o1, ho1⟩ := hsome
                obtain ⟨hshop1, hnc1, hbal1⟩ := hcond o1 ho1
                -- replay the second run
                unfold recordPayment recordPaymentTwoPhase
                rw [if_neg (by omega)]
                rw [findOrderScoped_of_byId ho1 hshop1]
                dsimp only
                rw [if_neg (by simp [hnc1])]
                rw [if_neg (by omega)]
                have hded : dedupLookup db1 user req = some q := by
                  unfold dedupLookup
                  rw [hoff]
                  dsimp only
                  rw [hfp]
                  dsimp only
                  rw [if_pos ?hcondq]
                  case hcondq =>
                    rw [hpOrd, ho1]
                    simp [hshop1]
                rw [hded, hp]


/-- C4 (amended): CreateOrder resubmitted with the same tenant and idempotency
token returns the originally created order with the distinct already-synced
signal and creates nothing.  For RecordPayment the dedup lookup runs only
after the validation checks, so a resubmission returns the original payment
with the already-synced signal (and creates nothing) provided the repeated
amount still passes those checks against the updated order — the order is not
collected and the amount does not exceed the current remaining balance;
otherwise the resubmission fails with a validation error instead of returning
the original (see the counterexample). -/
theorem laundro_C4_idempotency_amended :
    (∀ (db db1 : DB) (user : User) (req : CreateOrderReq) (o : Order) (k : String),
      req.offlineId = some k →
      createOrder db user req = (CreateOrderRes.created o, db1) →
      createOrder db1 user req = (CreateOrderRes.alreadySynced o, db1)) ∧
    (∀ (db db1 : DB) (user : User) (req : RecordPaymentReq) (p : Payment) (k : String),
      req.offlineId = some k →
      recordPayment db user req = (RecordPaymentRes.created p, db1) →
      (∀ o1, findOrderById db1 req.orderId = some o1 →
        o1.shopId = user.shopId ∧ o1.status ≠ OrderStatus.COLLECTED ∧
        req.amount ≤ o1.totalAmount - o1.amountPaid) →
      recordPayment db1 user req = (RecordPaymentRes.alreadySynced p, db1)) :=
  ⟨createOrder_resubmit_synced, recordPayment_resubmit_synced⟩

/-- C4 counterexample: totalAmount 100, RecordPayment(75) with token "k"
succeeds; resubmitting the identical request does NOT return the original
payment with an already-applied signal — the balance validation runs before
the idempotency lookup, so the resubmission fails with ExceedsBalance(75, 25).
This refutes the claim that a repeated RecordPayment submission always yields
the same resulting entity. -/
theorem laundro_C4_counterexample :
    (recordPayment dbC4 userC4 reqC4).1 =
      RecordPaymentRes.created ⟨30, 20, 75, PaymentMethod.CASH, 100, some "k"⟩ ∧
    (recordPayment (recordPayment dbC4 userC4 reqC4).2 userC4 reqC4).1 =
      RecordPaymentRes.err (errExceedsBalance 75 25) := by
  refine ⟨by decide, by decide⟩

/-- C4 witness: a CreateOrder with token "ord1" resubmitted returns the same
order with the already-synced signal; a RecordPayment of 30 of 100 with token
"k2" resubmitted (still within balance) returns the same payment with the
already-synced signal; neither creates a second record. -/
theorem laundro_C4_witness :
    createOrder dbC4b userC4 reqC4b = (CreateOrderRes.created orderC4created, dbC4bAfter) ∧
    createOrder dbC4bAfter userC4 reqC4b =
      (CreateOrderRes.alreadySynced orderC4created, dbC4bAfter) ∧
    recordPayment dbC4 userC4 reqC4c = (RecordPaymentRes.created payC4c, dbC4afterPay) ∧
    recordPayment dbC4afterPay userC4 reqC4c =
      (RecordPaymentRes.alreadySynced payC4c, dbC4afterPay) := by
  refine ⟨by decide, laundro_C4_idempotency_amended.1 dbC4b dbC4bAfter userC4 reqC4b
      orderC4created "ord1" rfl (by decide), by decide,
    laundro_C4_idempotency_amended.2 dbC4 dbC4afterPay userC4 reqC4c payC4c "k2" rfl
      (by decide) ?_⟩
  intro o1 ho1
  have h0 : findOrderById dbC4afterPay 20 = some orderC4afterPay := by decide
  obtain rfl := Option.some.inj (h0.symm.trans ho1)
  exact ⟨rfl, by decide, by decide⟩

/-- C8 (amended): a token recorded under tenant A never causes tenant B's
request to short-circuit into A's record — the already-synced path only ever
returns a payment whose populated order belongs to the caller's own shop, and
it never modifies the store.  However token uniqueness is NOT scoped to the
tenant: `offlineId` carries a global sparse unique index, so a payment
creation succeeds only if no payment of ANY tenant already carries the token
(see the counterexample, where tenant B's insert with tenant A's token fails
with a duplicate-key error). -/
theorem laundro_C8_token_scoping_amended :
    (∀ (db : DB) (user : User) (req : RecordPaymentReq) (p : Payment) (db1 : DB),
      recordPayment db user req = (RecordPaymentRes.alreadySynced p, db1) →
      db1 = db ∧ ∃ o, findOrderById db p.orderId = some o ∧ o.shopId = user.shopId) ∧
    (∀ (db : DB) (user : User) (req : RecordPaymentReq) (p : Payment) (db1 : DB) (k : String),
      recordPayment db user req = (RecordPaymentRes.created p, db1) →
      req.offlineId = some k →
      ∀ q ∈ db.payments, q.offlineId ≠ some k) := by
  constructor
  · intro db user req p db1 hrun
    unfold recordPayment recordPaymentTwoPhase at hrun
    split at hrun
    · exact absurd hrun (by simp)
    · cases hfs : findOrderScoped db req.orderId user.shopId with
      | none =>
        rw [hfs] at hrun
        exact absurd hrun (by simp)
      | some order =>
        rw [hfs] at hrun
        dsimp only at hrun
        split at hrun
        · exact absurd hrun (by simp)
        · split at hrun
          · exact absurd hrun (by simp)
          · cases hd : dedupLookup db user req with
            | none =>
              rw [hd] at hrun
              dsimp only at hrun
              unfold recordPaymentWrite at hrun
              cases hw : db.orders.find? (paymentUpdateFilter user req) with
              | none =>
                rw [hw] at hrun
                dsimp only at hrun
                split at hrun
                · exact absurd hrun (by simp)
                · split at hrun
                  · exact absurd hrun (by simp)
                  · split at hrun
                    · exact absurd hrun (by simp)
                    · exact absurd hrun (by simp)
              | some ofound =>
                rw [hw] at hrun
                dsimp only at hrun
                cases hins : insertPayment (orderSideUpdate db user req order.status)
                    (newPaymentOf user req) with
                | error e =>
                  rw [hins] at hrun
                  exact absurd hrun (by simp)
                | ok pr =>
                  obtain ⟨q, dbB⟩ := pr
                  rw [hins] at hrun
                  exact absurd hrun (by simp)
            | some pp =>
              rw [hd] at hrun
              rw [Prod.mk.injEq, RecordPaymentRes.alreadySynced.injEq] at hrun
              obtain ⟨hpp, hdb1⟩ := hrun
              refine ⟨hdb1.symm, ?_⟩
              unfold dedupLookup at hd
              cases hoff : req.offlineId with
              | none =>
                rw [hoff] at hd
                exact absurd hd (by simp)
              | some k =>
                rw [hoff] at hd
                dsimp only at hd
                cases hfp : findPaymentByOffline db k with
                | none =>
                  rw [hfp] at hd
                  exact absurd hd (by simp)
                | some p2 =>
                  rw [hfp] at hd
                  dsimp only at hd
                  split at hd
                  · rename_i hcond
                    rw [Option.some.injEq] at hd
                    cases hfo : findOrderById db p2.orderId with
                    | none =>
                      rw [hfo] at hcond
                      exact absurd hcond (by simp)
                    | some o =>
                      rw [hfo] at hcond
                      simp only [Option.map, Option.bind, beq_iff_eq] at hcond
                      simp only [Option.some.injEq] at hcond
                      refine ⟨o, ?_, hcond⟩
                      rw [← hpp, ← hd]
                      exact hfo
                  · exact absurd hd (by simp)
  · intro db user req p db1 k hrun hoff
    unfold recordPayment recordPaymentTwoPhase at hrun
    split at hrun
    · exact absurd hrun (by simp)
    · cases hfs : findOrderScoped db req.orderId user.shopId with
      | none =>
        rw [hfs] at hrun
        exact absurd hrun (by simp)
      | some order =>
        rw [hfs] at hrun
        dsimp only at hrun
        split at hrun
        · exact absurd hrun (by simp)
        · split at hrun
          · exact absurd hrun (by simp)
          · cases hd : dedupLookup db user req with
            | some pp =>
              rw [hd] at hrun
              exact absurd hrun (by simp)
            | none =>
              rw [hd] at hrun
              dsimp only at hrun
              unfold recordPaymentWrite at hrun
              cases hw : db.orders.find? (paymentUpdateFilter user req) with
              | none =>
                rw [hw] at hrun
                dsimp only at hrun
                split at hrun
                · exact absurd hrun (by simp)
                · split at hrun
                  · exact absurd hrun (by simp)
                  · split at hrun
                    · exact absurd hrun (by simp)
                    · exact absurd hrun (by simp)
              | some ofound =>
                rw [hw] at hrun
                dsimp only at hrun
                cases hins : insertPayment (orderSideUpdate db user req order.status)
                    (newPaymentOf user req) with
                | error e =>
                  rw [hins] at hrun
                  exact absurd hrun (by simp)
                | ok pr =>
                  obtain ⟨q, dbB⟩ := pr
                  obtain ⟨hq, hdbB, hdupP⟩ := insertPayment_ok hins
                  intro qq hqq
                  have hh : (newPaymentOf user req).offlineId = some k := hoff
                  unfold hasPaymentOffline at hdupP
                  rw [hh] at hdupP
                  have hpays : (orderSideUpdate db user req order.status).payments =
                      db.payments := rfl
                  rw [hpays] at hdupP
                  rw [List.any_eq_false] at hdupP
                  have := hdupP qq hqq
                  simpa using this

/-- C8 witness: a same-tenant resubmission that short-circuits through the
dedup lookup returns a payment whose order belongs to the caller's own shop;
and a successful creation with token "k3" implies no payment in the prior
state carried that token (all-check over the stored payments). -/
theorem laundro_C8_witness :
    (findOrderById dbC4afterPay payC4c.orderId).map Order.shopId = some userC4.shopId ∧
    dbC4afterPay.payments.all (fun q => q.offlineId != some "k3") = true := by
  have h1 := laundro_C8_token_scoping_amended.1 dbC4afterPay userC4 reqC4c payC4c dbC4afterPay
    (by decide)
  have h2 := laundro_C8_token_scoping_amended.2 dbC4afterPay userC4 reqC8w payC8w dbC8wAfter
    "k3" (by decide) rfl
  constructor
  · obtain ⟨o, hfo, hs⟩ := h1.2
    rw [hfo]
    simp [hs]
  · rw [List.all_eq_true]
    intro q hq
    have := h2 q hq
    simpa using this


/-- C8 counterexample: the token "k" is recorded under a tenant-1 payment;
tenant 2 submits a payment for its own order 21 carrying "k".  The request is
not short-circuited into tenant 1's record, but it fails with the global
duplicate-key error and no payment record is created — refuting the claim
that token uniqueness and deduplication are scoped to the tenant rather than
global. -/
theorem laundro_C8_counterexample :
    (findOrderById dbC8 payC8.orderId).map Order.shopId = some 1 ∧
    userC8.shopId = 2 ∧
    recordPayment dbC8 userC8 reqC8 = (RecordPaymentRes.err errDuplicateKey, dbC8after) ∧
    dbC8after.payments = dbC8.payments := by
  refine ⟨by decide, rfl, by decide, by decide⟩

theorem paymentsSum_same {db db1 : DB} (h : db1.payments = db.payments) (t : Nat) :
    paymentsSum db1 t = paymentsSum db t := by
  unfold paymentsSum
  rw [h]

theorem paymentsSum_snoc {db db1 : DB} {q : Payment}
    (h : db1.payments = db.payments ++ [q]) (t : Nat) :
    paymentsSum db1 t = paymentsSum db t + (if q.orderId = t then q.amount else 0) := by
  unfold paymentsSum
  rw [h, List.filter_append, List.map_append, List.sum_append]
  congr 1
  by_cases hq : q.orderId = t
  · simp [List.filter, hq]
  · have hb : (q.orderId == t) = false := by simp [hq]
    simp [List.filter, hb, hq]

theorem paymentsSum_fresh {db : DB} {t : Nat} (h : ∀ q ∈ db.payments, q.orderId ≠ t) :
    paymentsSum db t = 0 := by
  unfold paymentsSum
  have : db.payments.filter (fun p => p.orderId == t) = [] := by
    rw [List.filter_eq_nil_iff]
    intro q hq
    simpa using h q hq
  rw [this]
  rfl

theorem insertOrder_ok_paid {db : DB} {o o2 : Order} {db2 : DB}
    (h : insertOrder db o = .ok (o2, db2)) : 0 ≤ o.amountPaid := by
  unfold insertOrder at h
  split at h
  · exact absurd h (by simp)
  · rename_i hval
    omega

theorem createOrder_sumInv :
    ∀ (db : DB) (user : User) (req : CreateOrderReq) (res : CreateOrderRes) (db1 : DB),
      SumInv db → FreshIds db →
      createOrder db user req = (res, db1) → SumInv db1 := by
  intro db user req res db1 hsum hfresh hrun
  unfold createOrder at hrun
  cases hc : findCustomerScoped db req.customerId user.shopId with
  | none =>
    rw [hc] at hrun
    rw [Prod.mk.injEq] at hrun
    rw [← hrun.2]
    exact hsum
  | some c =>
    rw [hc] at hrun
    dsimp only at hrun
    have htxn : createOrderTxn db user req = (res, db1) → SumInv db1 := by
      intro hrun2
      unfold createOrderTxn at hrun2
      cases hins : insertOrder db (newOrderOf user req) with
      | error e =>
        rw [hins] at hrun2
        rw [Prod.mk.injEq] at hrun2
        rw [← hrun2.2]
        exact hsum
      | ok pr =>
        obtain ⟨createdOrder, dbA⟩ := pr
        rw [hins] at hrun2
        dsimp only at hrun2
        obtain ⟨hco, hdbA, hdup⟩ := insertOrder_ok hins
        have hpaid0 : 0 ≤ req.amountPaid := insertOrder_ok_paid hins
        have hcoOid : createdOrder.oid = db.nextId := by
          rw [hco]
          rfl
        have hcoPaid : createdOrder.amountPaid = req.amountPaid := by
          rw [hco]
          rfl
        by_cases hpay : req.amountPaid > 0
        · rw [if_pos hpay] at hrun2
          cases hins2 : insertPayment dbA (initialPaymentOf user req createdOrder.oid) with
          | error e =>
            rw [hins2] at hrun2
            rw [Prod.mk.injEq] at hrun2
            rw [← hrun2.2]
            exact hsum
          | ok pr2 =>
            obtain ⟨q, dbB⟩ := pr2
            rw [hins2] at hrun2
            dsimp only at hrun2
            rw [Prod.mk.injEq] at hrun2
            obtain ⟨hq, hdbB, hdup2⟩ := insertPayment_ok hins2
            have hqOrd : q.orderId = createdOrder.oid := by
              rw [hq]
              rfl
            have hqAmt : q.amount = req.amountPaid := by
              rw [hq]
              rfl
            have hpayB : db1.payments = db.payments ++ [q] := by
              rw [← hrun2.2, hdbB, hdbA]
            have hordB : db1.orders = db.orders ++ [createdOrder] := by
              rw [← hrun2.2, hdbB, hdbA]
            intro x hx
            rw [hordB] at hx
            rcases List.mem_append.mp hx with hx1 | hx2
            · rw [paymentsSum_snoc hpayB]
              rw [if_neg ?hne]
              case hne =>
                rw [hqOrd, hcoOid]
                have := hfresh.1 x hx1
                omega
              rw [add_zero]
              exact hsum x hx1
            · have hx3 : x = createdOrder := by simpa using hx2
              rw [hx3, paymentsSum_snoc hpayB, if_pos (by rw [hqOrd])]
              have h0 : paymentsSum db createdOrder.oid = 0 := by
                apply paymentsSum_fresh
                intro qq hqq
                rw [hcoOid]
                have := hfresh.2 qq hqq
                omega
              rw [h0, hqAmt, hcoPaid]
              omega
        · rw [if_neg hpay] at hrun2
          rw [Prod.mk.injEq] at hrun2
          have hordA : db1.orders = db.orders ++ [createdOrder] := by
            rw [← hrun2.2, hdbA]
          have hpayA : db1.payments = db.payments := by
            rw [← hrun2.2, hdbA]
          intro x hx
          rw [hordA] at hx
          rcases List.mem_append.mp hx with hx1 | hx2
          · rw [paymentsSum_same hpayA]
            exact hsum x hx1
          · have hx3 : x = createdOrder := by simpa using hx2
            rw [hx3, paymentsSum_same hpayA]
            have h0 : paymentsSum db createdOrder.oid = 0 := by
              apply paymentsSum_fresh
              intro qq hqq
              rw [hcoOid]
              have := hfresh.2 qq hqq
              omega
            rw [h0, hcoPaid]
            omega
    cases hoff : req.offlineId with
    | none =>
      rw [hoff] at hrun
      exact htxn hrun
    | some k =>
      rw [hoff] at hrun
      dsimp only at hrun
      cases hfo : findOrderByOfflineScoped db k user.shopId with
      | some ex =>
        rw [hfo] at hrun
        rw [Prod.mk.injEq] at hrun
        rw [← hrun.2]
        exact hsum
      | none =>
        rw [hfo] at hrun
        exact htxn hrun


theorem recordPayment_sumInv :
    ∀ (db : DB) (user : User) (req : RecordPaymentReq) (p : Payment) (db1 : DB),
      SumInv db → (db.orders.map Order.oid).Nodup →
      recordPayment db user req = (RecordPaymentRes.created p, db1) → SumInv db1 := by
  intro db user req p db1 hsum hnodup hrun
  unfold recordPayment recordPaymentTwoPhase at hrun
  split at hrun
  · exact absurd hrun (by simp)
  · rename_i hpos
    cases hfs : findOrderScoped db req.orderId user.shopId with
    | none =>
      rw [hfs] at hrun
      exact absurd hrun (by simp)
    | some order =>
      rw [hfs] at hrun
      dsimp only at hrun
      split at hrun
      · exact absurd hrun (by simp)
      · split at hrun
        · exact absurd hrun (by simp)
        · cases hd : dedupLookup db user req with
          | some pp =>
            rw [hd] at hrun
            exact absurd hrun (by simp)
          | none =>
            rw [hd] at hrun
            dsimp only at hrun
            unfold recordPaymentWrite at hrun
            cases hw : db.orders.find? (paymentUpdateFilter user req) with
            | none =>
              rw [hw] at hrun
              dsimp only at hrun
              split at hrun
              · exact absurd hrun (by simp)
              · split at hrun
                · exact absurd hrun (by simp)
                · split at hrun
                  · exact absurd hrun (by simp)
                  · exact absurd hrun (by simp)
            | some ofound =>
              rw [hw] at hrun
              dsimp only at hrun
              cases hins : insertPayment (orderSideUpdate db user req order.status)
                  (newPaymentOf user req) with
              | error e =>
                rw [hins] at hrun
                exact absurd hrun (by simp)
              | ok pr =>
                obtain ⟨q, dbB⟩ := pr
                rw [hins] at hrun
                dsimp only at hrun
                rw [Prod.mk.injEq, RecordPaymentRes.created.injEq] at hrun
                obtain ⟨hp, hdb1⟩ := hrun
                obtain ⟨hq, hdbB, hdupP⟩ := insertPayment_ok hins
                obtain ⟨l₁, l₂, heq, hall, hy⟩ := find?_decomp hw
                obtain ⟨hoid, hshopF, hstatF, hleF⟩ := paymentUpdateFilter_decode hy
                have huniq := nodup_oid_unique (heq ▸ hnodup)
                have hpays1 : db1.payments = db.payments ++ [q] := by
                  rw [← hdb1, hdbB]
                  rfl
                have horders : db1.orders =
                    l₁ ++ applyPaymentUpdate order.status req.amount ofound :: l₂ := by
                  rw [← hdb1, hdbB]
                  show (orderSideUpdate db user req order.status).orders = _
                  unfold orderSideUpdate
                  dsimp only
                  exact updateFirst_decomp heq hall hy
                have hqOrd : q.orderId = req.orderId := by
                  rw [hq]
                  rfl
                have hqAmt : q.amount = req.amount := by
                  rw [hq]
                  rfl
                intro x hx
                rw [horders] at hx
                rcases List.mem_append.mp hx with hx1 | hx2
                · rw [paymentsSum_snoc hpays1, if_neg ?hne1, add_zero]
                  case hne1 =>
                    rw [hqOrd, ← hoid]
                    intro hcc
                    exact huniq.1 x hx1 hcc.symm
                  exact hsum x (by rw [heq]; exact List.mem_append_left _ hx1)
                · rcases List.mem_cons.mp hx2 with hx3 | hx4
                  · rw [hx3, paymentsSum_snoc hpays1, if_pos ?hpos2]
                    case hpos2 =>
                      rw [hqOrd, ← hoid]
                      rfl
                    have hmemF : ofound ∈ db.orders := by
                      rw [heq]
                      exact List.mem_append_right _ (List.mem_cons_self _ _)
                    have hsF := hsum ofound hmemF
                    have hox : (applyPaymentUpdate order.status req.amount ofound).oid =
                        ofound.oid := rfl
                    rw [hox, hsF, hqAmt]
                    rfl
                  · rw [paymentsSum_snoc hpays1, if_neg ?hne2, add_zero]
                    case hne2 =>
                      rw [hqOrd, ← hoid]
                      intro hcc
                      exact huniq.2 x hx4 hcc.symm
                    exact hsum x (by
                      rw [heq]
                      exact List.mem_append_right _ (List.mem_cons_of_mem _ hx4))

theorem recordPayment_err_breaks_sumInv :
    ∀ (db : DB) (user : User) (req : RecordPaymentReq) (e : ErrorResponse) (db1 : DB),
      recordPayment db user req = (RecordPaymentRes.err e, db1) →
      db1 ≠ db → SumInv db → ¬ SumInv db1 := by
  intro db user req e db1 hrun hne hsum
  unfold recordPayment recordPaymentTwoPhase at hrun
  split at hrun
  · rw [Prod.mk.injEq] at hrun
    exact absurd hrun.2.symm hne
  · rename_i hpos
    cases hfs : findOrderScoped db req.orderId user.shopId with
    | none =>
      rw [hfs] at hrun
      rw [Prod.mk.injEq] at hrun
      exact absurd hrun.2.symm hne
    | some order =>
      rw [hfs] at hrun
      dsimp only at hrun
      split at hrun
      · rw [Prod.mk.injEq] at hrun
        exact absurd hrun.2.symm hne
      · split at hrun
        · rw [Prod.mk.injEq] at hrun
          exact absurd hrun.2.symm hne
        · cases hd : dedupLookup db user req with
          | some pp =>
            rw [hd] at hrun
            exact absurd hrun (by simp)
          | none =>
            rw [hd] at hrun
            dsimp only at hrun
            unfold recordPaymentWrite at hrun
            cases hw : db.orders.find? (paymentUpdateFilter user req) with
            | none =>
              rw [hw] at hrun
              dsimp only at hrun
              split at hrun
              · rw [Prod.mk.injEq] at hrun
                exact absurd hrun.2.symm hne
              · split at hrun
                · rw [Prod.mk.injEq] at hrun
                  exact absurd hrun.2.symm hne
                · split at hrun
                  · rw [Prod.mk.injEq] at hrun
                    exact absurd hrun.2.symm hne
                  · rw [Prod.mk.injEq] at hrun
                    exact absurd hrun.2.symm hne
            | some ofound =>
              rw [hw] at hrun
              dsimp only at hrun
              cases hins : insertPayment (orderSideUpdate db user req order.status)
                  (newPaymentOf user req) with
              | ok pr =>
                obtain ⟨q, dbB⟩ := pr
                rw [hins] at hrun
                exact absurd hrun (by simp)
              | error e2 =>
                rw [hins] at hrun
                dsimp only at hrun
                rw [Prod.mk.injEq] at hrun
                have hdb1 : db1 = orderSideUpdate db user req order.status := hrun.2.symm
                obtain ⟨l₁, l₂, heq, hall, hy⟩ := find?_decomp hw
                have horders : db1.orders =
                    l₁ ++ applyPaymentUpdate order.status req.amount ofound :: l₂ := by
                  rw [hdb1]
                  show (orderSideUpdate db user req order.status).orders = _
                  unfold orderSideUpdate
                  dsimp only
                  exact updateFirst_decomp heq hall hy
                have hpays : db1.payments = db.payments := by
                  rw [hdb1]
                  rfl
                intro hS
                have hmemU : applyPaymentUpdate order.status req.amount ofound ∈ db1.orders := by
                  rw [horders]
                  exact List.mem_append_right _ (List.mem_cons_self _ _)
                have hSU := hS _ hmemU
                rw [paymentsSum_same hpays] at hSU
                have hox : (applyPaymentUpdate order.status req.amount ofound).oid =
                    ofound.oid := rfl
                rw [hox] at hSU
                have hmemF : ofound ∈ db.orders := by
                  rw [heq]
                  exact List.mem_append_right _ (List.mem_cons_self _ _)
                have hsF := hsum ofound hmemF
                have hup : (applyPaymentUpdate order.status req.amount ofound).amountPaid =
                    ofound.amountPaid + req.amount := rfl
                rw [hup, hsF] at hSU
                omega


/-- C9 (amended): the payments-sum invariant — every order's `amountPaid`
equals the sum of its payment records — is preserved by CreateOrder (the
order and its initial payment are inserted in one transaction) and by every
fully successful RecordPayment (the conditional update and the payment insert
together add the same amount to both sides).  But it does NOT survive a
payment-record insert that fails after the order-side update: the only
error outcome that changes state is the failed insert, and it always leaves
the invariant broken — amountPaid was incremented with no compensating
payment record (see the counterexample). -/
theorem laundro_C9_payments_sum_amended :
    (∀ (db : DB) (user : User) (req : CreateOrderReq) (res : CreateOrderRes) (db1 : DB),
      SumInv db → FreshIds db → createOrder db user req = (res, db1) → SumInv db1) ∧
    (∀ (db : DB) (user : User) (req : RecordPaymentReq) (p : Payment) (db1 : DB),
      SumInv db → (db.orders.map Order.oid).Nodup →
      recordPayment db user req = (RecordPaymentRes.created p, db1) → SumInv db1) ∧
    (∀ (db : DB) (user : User) (req : RecordPaymentReq) (e : ErrorResponse) (db1 : DB),
      recordPayment db user req = (RecordPaymentRes.err e, db1) →
      db1 ≠ db → SumInv db → ¬ SumInv db1) :=
  ⟨createOrder_sumInv, recordPayment_sumInv, recordPayment_err_breaks_sumInv⟩

/-- C9 counterexample: the invariant holds in the initial store; tenant 2
records a payment whose token collides with a tenant-1 token, so the payment
insert fails after the order-side update already incremented amountPaid to
50; the final store violates the invariant (order 21 has amountPaid 50 and no
payment records), refuting the claim that the invariant holds even when the
payment-record insert fails after the order-side update. -/
theorem laundro_C9_counterexample :
    SumInv dbC8 ∧
    recordPayment dbC8 userC8 reqC8 = (RecordPaymentRes.err errDuplicateKey, dbC8after) ∧
    ¬ SumInv dbC8after := by
  refine ⟨by decide, by decide, by decide⟩

/-- C9 witness: a fully successful RecordPayment of 30 preserves the
invariant in the resulting store, and the failed-insert run leaves a store
that violates it. -/
theorem laundro_C9_witness :
    SumInv dbC4afterPay ∧ ¬ SumInv dbC8after := by
  refine ⟨laundro_C9_payments_sum_amended.2.1 dbC4 userC4 reqC4c payC4c dbC4afterPay
      (by decide) (by decide) (by decide),
    laundro_C9_payments_sum_amended.2.2 dbC8 userC8 reqC8 errDuplicateKey dbC8after
      (by decide) (by decide) (by decide)⟩

end Laundro
